import Mathlib

set_option maxRecDepth 16384

/-!
Shallow embedding of the theme generation and color-harmonization engine of
`src/lib/theme-generator.ts`, together with theorems settling the claims
C1 - C10 about it.

Modelling conventions:
* JavaScript strings are Lean `String`s; template-literal interpolation becomes
  string concatenation.  A literal brace inside a string is written with the
  escapes \x7b and \x7d.
* JavaScript numbers on the color path are modelled exactly: integer RGB
  channels are `Nat`, `Math.round` of a rational value `q` is `⌊q + 1/2⌋`
  (JS rounds half-up, including for negatives), and the WCAG luminance math is
  over `ℝ` with `Real.rpow` for `Math.pow(_, 2.4)`.  The float loops
  `for (factor = 0.9; factor > 0.1; factor -= 0.1)` and
  `for (factor = 1.1; factor < 3; factor += 0.1)` execute with the usual
  binary-float drift; they run exactly 9 resp. 19 iterations with factors a
  hair above k/10 (k = 9..1 resp. 11..29), and for integer channels in
  0..255 the rounded products coincide with the exact rationals k/10, so the
  factor lists are modelled as k/10 with those k.
* `undefined`/absent optional fields become `Option`; the JS truthiness idioms
  `x || d` and `x ? a : b` are modelled per type: empty strings are falsy,
  arrays (even empty ones) and objects are truthy.
* Fallible JS operations (the duck-typed AI-override merge, which can throw a
  `TypeError` caught by its caller — on a `null` override value, on a truthy
  non-array palette path, or when `findIndex`'s predicate reads `.slug` of a
  `null` palette entry) return `Except Unit`.
* JS property lookup on the `sectionMap` object literal resolves the
  prototype chain: names of inherited `Object.prototype` members yield truthy
  inherited values that bypass the `||` fallback.
-/

/-! ### JavaScript value-defaulting helpers -/

/-- Models the JS idiom `s || d` for a possibly-undefined string `s`:
`undefined`, `null` and the empty string are falsy. -/
def strOr (v : Option String) (d : String) : String :=
  match v with
  | some s => if s = "" then d else s
  | none => d

/-- Models the JS idiom `l || d` for a possibly-undefined array `l`: arrays are
always truthy, even when empty, so only `undefined`/`null` picks the default. -/
def listOr {α : Type} (v : Option (List α)) (d : List α) : List α :=
  match v with
  | some l => l
  | none => d

/-- Helper for `String.includes`: does `needle` occur as a contiguous
subsequence of `hay`? -/
def listContainsSub (needle : List Char) : List Char → Bool
  | [] => needle.isEmpty
  | c :: rest => needle.isPrefixOf (c :: rest) || listContainsSub needle rest

/-- Models JS `hay.includes(needle)`. -/
def strIncludes (hay needle : String) : Bool :=
  listContainsSub needle.data hay.data

/-- Models `s.charAt(0).toUpperCase() + s.slice(1)` (slugs are ASCII). -/
def capitalizeFirst (s : String) : String :=
  match s.data with
  | [] => ""
  | c :: rest => String.mk (c.toUpper :: rest)

/-! ### Color math utility (`hexToRgb`, `rgbToHex`) -/

/-- A hex digit as accepted by the regex character class `[a-f\d]` with the
case-insensitive flag. -/
def isHexDigitChar (c : Char) : Bool :=
  ('0' ≤ c && c ≤ '9') || ('a' ≤ c && c ≤ 'f') || ('A' ≤ c && c ≤ 'F')

/-- Value of a hex digit (as parsed by `parseInt(_, 16)`). -/
def hexDigitVal (c : Char) : Nat :=
  if '0' ≤ c && c ≤ '9' then c.toNat - '0'.toNat
  else if 'a' ≤ c && c ≤ 'f' then c.toNat - 'a'.toNat + 10
  else c.toNat - 'A'.toNat + 10

/-- `hexToRgb`: matches `/^#?([a-f\d]{2})([a-f\d]{2})([a-f\d]{2})$/i` and
parses each pair with `parseInt(_, 16)`; `null` becomes `none`. -/
def hexToRgb (hex : String) : Option (Nat × Nat × Nat) :=
  let cs := match hex.data with
    | '#' :: rest => rest
    | cs => cs
  match cs with
  | [a, b, c, d, e, f] =>
    if (isHexDigitChar a && isHexDigitChar b && isHexDigitChar c &&
        isHexDigitChar d && isHexDigitChar e && isHexDigitChar f) then
      some (16 * hexDigitVal a + hexDigitVal b,
            16 * hexDigitVal c + hexDigitVal d,
            16 * hexDigitVal e + hexDigitVal f)
    else none
  | _ => none

/-- JS `Math.round`: round half toward positive infinity. -/
def jsRound (q : ℚ) : ℤ := ⌊q + 1/2⌋

/-- Lowercase hex digits of `n`, as produced by JS `n.toString(16)` for a
nonnegative integer (no leading zeros, `"0"` for zero). -/
def natToHex (n : Nat) : String := String.mk (Nat.toDigits 16 n)

/-- JS `i.toString(16)` for an integer: negative values print as `-` followed
by the hex digits of the absolute value. -/
def intToHexStr (i : ℤ) : String :=
  if i < 0 then "-" ++ natToHex i.natAbs else natToHex i.toNat

/-- One channel of `rgbToHex` after rounding: `hex.length === 1 ? "0"+hex : hex`. -/
def byteHexInt (i : ℤ) : String :=
  let hex := intToHexStr i
  if hex.length = 1 then "0" ++ hex else hex

/-- One channel of `rgbToHex`: `Math.round(x).toString(16)`, zero-padded to two
characters.  Note there is no clamping in the source. -/
def byteHex (x : ℚ) : String := byteHexInt (jsRound x)

/-- `rgbToHex(r, g, b)`: `"#" + [r,g,b].map(x => ...).join("")`. -/
def rgbToHex (r g b : ℚ) : String :=
  "#" ++ byteHex r ++ byteHex g ++ byteHex b

/-! ### WCAG luminance and contrast (`getLuminance`, `getContrastRatio`) -/

/-- One channel of the relative-luminance computation:
`c <= 0.03928 ? c/12.92 : Math.pow((c + 0.055)/1.055, 2.4)` with `c = v/255`. -/
noncomputable def srgbChannel (v : Nat) : ℝ :=
  let c : ℝ := (v : ℝ) / 255
  if c ≤ 0.03928 then c / 12.92 else ((c + 0.055) / 1.055) ^ (2.4 : ℝ)

/-- `getLuminance`: weighted sum of the gamma-corrected channels; an
unparseable hex string yields 0. -/
noncomputable def getLuminance (hex : String) : ℝ :=
  match hexToRgb hex with
  | none => 0
  | some (r, g, b) =>
    0.2126 * srgbChannel r + 0.7152 * srgbChannel g + 0.0722 * srgbChannel b

/-- `getContrastRatio`: `(brightest + 0.05) / (darkest + 0.05)`. -/
noncomputable def getContrastRatio (color1 color2 : String) : ℝ :=
  (max (getLuminance color1) (getLuminance color2) + 0.05) /
    (min (getLuminance color1) (getLuminance color2) + 0.05)

/-! ### Contrast corrector (`adjustLightnessForContrast`) -/

/-- `Math.round(c * (k/10))` for a channel `c : Nat` and scale factor `k/10`:
`⌊(c*k)/10 + 1/2⌋ = (c*k + 5)/10` in natural-number division. -/
def scaleChannel (c k : Nat) : Nat := (c * k + 5) / 10

/-- The darkening factors 0.9, 0.8, ..., down to ≈0.1 (9 loop iterations),
as numerators over 10. -/
def darkFactorSteps : List Nat := [9, 8, 7, 6, 5, 4, 3, 2, 1]

/-- The lightening factors 1.1, 1.2, ..., 2.9 (19 loop iterations),
as numerators over 10. -/
def lightFactorSteps : List Nat :=
  [11, 12, 13, 14, 15, 16, 17, 18, 19, 20, 21, 22, 23, 24, 25, 26, 27, 28, 29]

/-- Candidate color produced by one darkening iteration:
`rgbToHex(Math.round(r*factor), Math.round(g*factor), Math.round(b*factor))`. -/
def darkCandidate (r g b k : Nat) : String :=
  rgbToHex (scaleChannel r k : ℕ) (scaleChannel g k : ℕ) (scaleChannel b k : ℕ)

/-- Candidate color produced by one lightening iteration; channels are clamped
at 255 by `Math.min`. -/
def lightCandidate (r g b k : Nat) : String :=
  rgbToHex (min 255 (scaleChannel r k) : ℕ) (min 255 (scaleChannel g k) : ℕ)
    (min 255 (scaleChannel b k) : ℕ)

/-- The list of darkening candidates tried in order. -/
def darkCandidates (r g b : Nat) : List String :=
  darkFactorSteps.map (fun k => darkCandidate r g b k)

/-- The list of lightening candidates tried in order. -/
def lightCandidates (r g b : Nat) : List String :=
  lightFactorSteps.map (fun k => lightCandidate r g b k)

/-- First candidate in the list whose contrast against `background` reaches
`targetRatio` (the early `return` inside each search loop). -/
noncomputable def firstMeeting (background : String) (targetRatio : ℝ) :
    List String → Option String
  | [] => none
  | c :: rest =>
    if getContrastRatio c background ≥ targetRatio then some c
    else firstMeeting background targetRatio rest

/-- `adjustLightnessForContrast(color, background, targetRatio)`. -/
noncomputable def adjustLightnessForContrast
    (color background : String) (targetRatio : ℝ) : String :=
  if getContrastRatio color background ≥ targetRatio then color
  else
    match hexToRgb color with
    | none => color
    | some (r, g, b) =>
      match firstMeeting background targetRatio (darkCandidates r g b) with
      | some c => c
      | none =>
        match firstMeeting background targetRatio (lightCandidates r g b) with
        | some c => c
        | none => if getLuminance background > 0.5 then "#000000" else "#ffffff"

/-! ### Palette harmonizer and contrast enforcement -/

/-- `ColorToken` from `src/types` (`locked?: boolean` collapses `undefined` to
`false`, matching its use in boolean position). -/
structure ColorToken where
  slug : String
  color : String
  locked : Bool
  source : Option String
  deriving DecidableEq

/-- `Math.round(c * 0.9 + p * 0.1)` for channels `c p : Nat`:
`⌊(9c + p)/10 + 1/2⌋ = (9c + p + 5)/10` in natural-number division. -/
def blendChannel (c p : Nat) : Nat := (9 * c + p + 5) / 10

/-- `harmonizeColors(palette, primaryColor)`. -/
def harmonizeColors (palette : List ColorToken) (primaryColor : String) :
    List ColorToken :=
  palette.map fun token =>
    if token.locked then token
    else if token.slug = "primary" then { token with color := primaryColor }
    else
      match hexToRgb token.color with
      | none => token
      | some (r, g, b) =>
        match hexToRgb primaryColor with
        | none => token
        | some (pr, pg, pb) =>
          { token with
            color := rgbToHex (blendChannel r pr : ℕ) (blendChannel g pg : ℕ)
              (blendChannel b pb : ℕ) }

/-- `validateAndFixContrasts(palette)`. -/
noncomputable def validateAndFixContrasts (palette : List ColorToken) :
    List ColorToken :=
  let background :=
    strOr ((palette.find? (fun p => p.slug = "background")).map ColorToken.color)
      "#ffffff"
  palette.map fun token =>
    if token.locked then token
    else if token.slug = "text" || strIncludes token.slug "text" then
      { token with color := adjustLightnessForContrast token.color background 4.5 }
    else token

/-! ### Project data model (from `src/types` / the Prisma schema) -/

/-- `FontConfig`; the generator only reads `family` and `fallback`, which may
be absent on the stored JSON value (`headingFont`/`bodyFont` default to `{}`). -/
structure FontConfig where
  family : Option String
  weights : Option (List ℚ)
  fallback : Option String
  deriving DecidableEq

/-- The `Brand` relation: `primary?`, `secondary?`, JSON `palette`, fonts. -/
structure Brand where
  primary : Option String
  secondary : Option String
  palette : Option (List ColorToken)
  headingFont : Option FontConfig
  bodyFont : Option FontConfig
  logoPath : Option String
  deriving DecidableEq

/-- One entry of `content.benefits`. -/
structure Benefit where
  title : String
  description : String
  deriving DecidableEq

/-- The `contact` JSON object of the `Content` relation. -/
structure ContactInfo where
  phone : Option String
  whatsapp : Option String
  address : Option String
  deriving DecidableEq

/-- The `Content` relation. -/
structure Content where
  headline : Option String
  benefits : Option (List Benefit)
  cta : Option String
  contact : Option ContactInfo
  deriving DecidableEq

/-- The `Layout` relation. -/
structure Layout where
  sections : Option (List String)
  deriving DecidableEq

/-- The `Assets` relation (only `heroPath` is read by the generator). -/
structure Assets where
  heroPath : Option String
  deriving DecidableEq

/-- `Project` with its optional relations, as consumed by the generator. -/
structure Project where
  name : String
  sector : Option String
  locale : String
  styleTags : List String
  brand : Option Brand
  assets : Option Assets
  content : Option Content
  layout : Option Layout
  deriving DecidableEq

/-! ### JSON values (runtime shape of `theme.json` and the AI override) -/

/-- Dynamically-typed JSON value, the runtime shape of `themeJson` and of the
parsed AI override (`undefined` is represented by `Option Json` outside). -/
inductive Json where
  | null : Json
  | bool : Bool → Json
  | num : ℚ → Json
  | str : String → Json
  | arr : List Json → Json
  | obj : List (String × Json) → Json

/-- `BlockPattern` (the optional `categories` field is never produced). -/
structure BlockPattern where
  slug : String
  title : String
  html : String
  deriving DecidableEq

/-- `GeneratedTheme`.  The TS interface declares structured fields, but
`mergeWithLockedColors` fills them with arbitrary values from the parsed AI
response (`aiTheme.theme_json || {}` etc.), so the runtime content is plain
JSON; the deterministic generator encodes its structured output accordingly. -/
structure GeneratedTheme where
  themeJson : Json
  patterns : Json
  templateFront : Json

/-! ### Pattern composer (`generateBlockPatterns`) -/

/-- The fixed default benefit triple. -/
def defaultBenefits : List Benefit :=
  [⟨"Fast Performance", "Optimized for speed and conversion"⟩,
   ⟨"Mobile First", "Responsive design that works everywhere"⟩,
   ⟨"SEO Ready", "Built with search engines in mind"⟩]

/-- The per-benefit column fragment of the benefits pattern
(`benefits.slice(0, 3).map(benefit => ...)`). -/
def benefitColumn (benefit : Benefit) : String :=
  "\n    <!-- wp:column -->\n    <div class=\"wp-block-column\">\n      <!-- wp:heading \x7b\"textAlign\":\"center\",\"level\":3\x7d -->\n      <h3 class=\"has-text-align-center\">" ++
  benefit.title ++
  "</h3>\n      <!-- /wp:heading -->\n      \n      <!-- wp:paragraph \x7b\"align\":\"center\"\x7d -->\n      <p class=\"has-text-align-center\">" ++
  benefit.description ++
  "</p>\n      <!-- /wp:paragraph -->\n    </div>\n    <!-- /wp:column -->\n    "

/-- `generateBlockPatterns(project, palette)` (the `async` wrapper is dropped:
the body never awaits). -/
def generateBlockPatterns (project : Project) (palette : List ColorToken) :
    List BlockPattern :=
  let headline :=
    strOr (project.content.bind Content.headline) "Welcome to Our Amazing Service"
  let cta := strOr (project.content.bind Content.cta) "Get Started Today"
  let benefits := listOr (project.content.bind Content.benefits) defaultBenefits
  let primaryColor :=
    strOr ((palette.find? (fun p => p.slug = "primary")).map ColorToken.color)
      "#3b82f6"
  let heroImage :=
    match project.assets.bind Assets.heroPath with
    | some p => if p = "" then "" else "/uploads/" ++ p
    | none => ""
  [{ slug := "header", title := "Header",
     html := "<!-- wp:group \x7b\"layout\":\x7b\"type\":\"flex\",\"justifyContent\":\"space-between\",\"flexWrap\":\"wrap\"\x7d\x7d -->\n<div class=\"wp-block-group\">\n  <!-- wp:site-logo \x7b\"width\":120\x7d /-->\n  <!-- wp:navigation \x7b\"overlayMenu\":\"mobile\"\x7d /-->\n</div>\n<!-- /wp:group -->" },
   { slug := "hero", title := "Hero Section",
     html := "<!-- wp:cover \x7b\"url\":\"" ++ heroImage ++
       "\",\"dimRatio\":30,\"customOverlayColor\":\"" ++ primaryColor ++
       "\",\"minHeight\":600,\"contentPosition\":\"center center\",\"isDark\":false\x7d -->\n<div class=\"wp-block-cover is-light\" style=\"min-height:600px\">\n  <span aria-hidden=\"true\" class=\"wp-block-cover__background has-background-dim-30\" style=\"background-color:" ++
       primaryColor ++
       "\"></span>\n  " ++
       (if heroImage = "" then ""
        else "<img class=\"wp-block-cover__image-background\" alt=\"\" src=\"" ++
          heroImage ++ "\" data-object-fit=\"cover\"/>") ++
       "\n  <div class=\"wp-block-cover__inner-container\">\n    <!-- wp:heading \x7b\"textAlign\":\"center\",\"level\":1,\"fontSize\":\"xx-large\"\x7d -->\n    <h1 class=\"has-text-align-center has-xx-large-font-size\">" ++
       headline ++
       "</h1>\n    <!-- /wp:heading -->\n    \n    <!-- wp:paragraph \x7b\"align\":\"center\",\"fontSize\":\"large\"\x7d -->\n    <p class=\"has-text-align-center has-large-font-size\">Transform your business with our innovative solutions</p>\n    <!-- /wp:paragraph -->\n    \n    <!-- wp:buttons \x7b\"layout\":\x7b\"type\":\"flex\",\"justifyContent\":\"center\"\x7d\x7d -->\n    <div class=\"wp-block-buttons\">\n      <!-- wp:button \x7b\"backgroundColor\":\"primary\",\"textColor\":\"white\",\"fontSize\":\"medium\"\x7d -->\n      <div class=\"wp-block-button has-medium-font-size\">\n        <a class=\"wp-block-button__link has-white-color has-primary-background-color has-text-color has-background\">" ++
       cta ++
       "</a>\n      </div>\n      <!-- /wp:button -->\n    </div>\n    <!-- /wp:buttons -->\n  </div>\n</div>\n<!-- /wp:cover -->" },
   { slug := "benefits", title := "Benefits Section",
     html := "<!-- wp:group \x7b\"style\":\x7b\"spacing\":\x7b\"padding\":\x7b\"top\":\"80px\",\"bottom\":\"80px\"\x7d\x7d\x7d,\"layout\":\x7b\"type\":\"constrained\"\x7d\x7d -->\n<div class=\"wp-block-group\" style=\"padding-top:80px;padding-bottom:80px\">\n  <!-- wp:heading \x7b\"textAlign\":\"center\",\"fontSize\":\"x-large\"\x7d -->\n  <h2 class=\"has-text-align-center has-x-large-font-size\">Why Choose Us</h2>\n  <!-- /wp:heading -->\n  \n  <!-- wp:columns \x7b\"style\":\x7b\"spacing\":\x7b\"margin\":\x7b\"top\":\"40px\"\x7d\x7d\x7d\x7d -->\n  <div class=\"wp-block-columns\" style=\"margin-top:40px\">\n    " ++
       String.join ((benefits.take 3).map benefitColumn) ++
       "\n  </div>\n  <!-- /wp:columns -->\n</div>\n<!-- /wp:group -->" },
   { slug := "about", title := "About Section",
     html := "<!-- wp:group \x7b\"style\":\x7b\"spacing\":\x7b\"padding\":\x7b\"top\":\"80px\",\"bottom\":\"80px\"\x7d\x7d\x7d,\"backgroundColor\":\"secondary\",\"layout\":\x7b\"type\":\"constrained\"\x7d\x7d -->\n<div class=\"wp-block-group has-secondary-background-color has-background\" style=\"padding-top:80px;padding-bottom:80px\">\n  <!-- wp:columns -->\n  <div class=\"wp-block-columns\">\n    <!-- wp:column -->\n    <div class=\"wp-block-column\">\n      <!-- wp:heading \x7b\"fontSize\":\"x-large\"\x7d -->\n      <h2 class=\"has-x-large-font-size\">About Our Company</h2>\n      <!-- /wp:heading -->\n      \n      <!-- wp:paragraph -->\n      <p>We are dedicated to providing exceptional service and innovative solutions that help our clients achieve their goals. Our team of experts brings years of experience and a passion for excellence to every project.</p>\n      <!-- /wp:paragraph -->\n      \n      <!-- wp:paragraph -->\n      <p>Founded with the vision of making quality services accessible to businesses of all sizes, we continue to grow and evolve with the changing needs of our clients.</p>\n      <!-- /wp:paragraph -->\n    </div>\n    <!-- /wp:column -->\n    \n    <!-- wp:column -->\n    <div class=\"wp-block-column\">\n      <!-- wp:image \x7b\"sizeSlug\":\"large\"\x7d -->\n      <figure class=\"wp-block-image size-large\">\n        <img src=\"https://images.unsplash.com/photo-1560472354-b33ff0c44a43?w=600&h=400&fit=crop\" alt=\"Our team\"/>\n      </figure>\n      <!-- /wp:image -->\n    </div>\n    <!-- /wp:column -->\n  </div>\n  <!-- /wp:columns -->\n</div>\n<!-- /wp:group -->" },
   { slug := "contact", title := "Contact Section",
     html := "<!-- wp:group \x7b\"style\":\x7b\"spacing\":\x7b\"padding\":\x7b\"top\":\"80px\",\"bottom\":\"80px\"\x7d\x7d\x7d,\"layout\":\x7b\"type\":\"constrained\"\x7d\x7d -->\n<div class=\"wp-block-group\" style=\"padding-top:80px;padding-bottom:80px\">\n  <!-- wp:heading \x7b\"textAlign\":\"center\",\"fontSize\":\"x-large\"\x7d -->\n  <h2 class=\"has-text-align-center has-x-large-font-size\">Get In Touch</h2>\n  <!-- /wp:heading -->\n  \n  <!-- wp:columns \x7b\"style\":\x7b\"spacing\":\x7b\"margin\":\x7b\"top\":\"40px\"\x7d\x7d\x7d\x7d -->\n  <div class=\"wp-block-columns\" style=\"margin-top:40px\">\n    <!-- wp:column -->\n    <div class=\"wp-block-column\">\n      <!-- wp:paragraph \x7b\"align\":\"center\"\x7d -->\n      <p class=\"has-text-align-center\"><strong>Phone:</strong> " ++
       strOr ((project.content.bind Content.contact).bind ContactInfo.phone)
         "+1 (555) 123-4567" ++
       "</p>\n      <!-- /wp:paragraph -->\n      \n      <!-- wp:paragraph \x7b\"align\":\"center\"\x7d -->\n      <p class=\"has-text-align-center\"><strong>Email:</strong> hello@example.com</p>\n      <!-- /wp:paragraph -->\n      \n      <!-- wp:paragraph \x7b\"align\":\"center\"\x7d -->\n      <p class=\"has-text-align-center\"><strong>Address:</strong> " ++
       strOr ((project.content.bind Content.contact).bind ContactInfo.address)
         "123 Business Street, City, State 12345" ++
       "</p>\n      <!-- /wp:paragraph -->\n    </div>\n    <!-- /wp:column -->\n    \n    <!-- wp:column -->\n    <div class=\"wp-block-column\">\n      <!-- wp:buttons \x7b\"layout\":\x7b\"type\":\"flex\",\"justifyContent\":\"center\"\x7d\x7d -->\n      <div class=\"wp-block-buttons\">\n        <!-- wp:button \x7b\"backgroundColor\":\"primary\",\"textColor\":\"white\"\x7d -->\n        <div class=\"wp-block-button\">\n          <a class=\"wp-block-button__link has-white-color has-primary-background-color has-text-color has-background\">Contact Us Today</a>\n        </div>\n        <!-- /wp:button -->\n      </div>\n      <!-- /wp:buttons -->\n    </div>\n    <!-- /wp:column -->\n  </div>\n  <!-- /wp:columns -->\n</div>\n<!-- /wp:group -->" },
   { slug := "footer", title := "Footer",
     html := "<!-- wp:group \x7b\"style\":\x7b\"spacing\":\x7b\"padding\":\x7b\"top\":\"40px\",\"bottom\":\"40px\"\x7d\x7d\x7d,\"backgroundColor\":\"neutral\",\"textColor\":\"white\",\"layout\":\x7b\"type\":\"constrained\"\x7d\x7d -->\n<div class=\"wp-block-group has-white-color has-neutral-background-color has-text-color has-background\" style=\"padding-top:40px;padding-bottom:40px\">\n  <!-- wp:paragraph \x7b\"align\":\"center\"\x7d -->\n  <p class=\"has-text-align-center\">© 2024 " ++
       project.name ++
       ". All rights reserved.</p>\n  <!-- /wp:paragraph -->\n</div>\n<!-- /wp:group -->" }]

/-! ### Template sequencer (`generateFrontPageTemplate`) -/

/-- The fixed `sectionMap` record; absent keys yield `undefined` (`none`). -/
def sectionMap (s : String) : Option String :=
  if s = "header" then
    some "<!-- wp:template-part \x7b\"slug\":\"header\",\"area\":\"header\"\x7d /-->"
  else if s = "hero" then some "<!-- wp:pattern \x7b\"slug\":\"hero\"\x7d /-->"
  else if s = "benefits" then some "<!-- wp:pattern \x7b\"slug\":\"benefits\"\x7d /-->"
  else if s = "about" then some "<!-- wp:pattern \x7b\"slug\":\"about\"\x7d /-->"
  else if s = "services" then some "<!-- wp:pattern \x7b\"slug\":\"services\"\x7d /-->"
  else if s = "contact" then some "<!-- wp:pattern \x7b\"slug\":\"contact\"\x7d /-->"
  else if s = "footer" then
    some "<!-- wp:template-part \x7b\"slug\":\"footer\",\"area\":\"footer\"\x7d /-->"
  else none

/-- The inherited `Object.prototype` member names visible to a bracket lookup
on a plain object literal: the ECMAScript `%Object.prototype%` methods and
`constructor`, plus the Annex B accessors present in all mainstream engines. -/
def objectPrototypeKeys : List String :=
  ["constructor", "hasOwnProperty", "isPrototypeOf", "propertyIsEnumerable",
   "toLocaleString", "toString", "valueOf", "__proto__", "__defineGetter__",
   "__defineSetter__", "__lookupGetter__", "__lookupSetter__"]

/-- The string `Array.prototype.join` produces for the inherited member
`sectionMap[k]` when `k` names an `Object.prototype` property:
`sectionMap["constructor"]` is the `Object` constructor function, the method
names yield the corresponding native functions (all stringified through
`Function.prototype.toString` in its NativeFunction form, whose whitespace is
host-defined — modelled here in the common V8 rendering), and
`sectionMap["__proto__"]` is the `%Object.prototype%` object itself, which
stringifies as `[object Object]`.  The development relies on these strings
only through their not being block references. -/
def inheritedRefString (k : String) : String :=
  if k = "__proto__" then "[object Object]"
  else if k = "constructor" then "function Object() \x7b [native code] \x7d"
  else "function " ++ k ++ "() \x7b [native code] \x7d"

/-- JS bracket lookup `sectionMap[section]` including prototype inheritance:
the own property when present, else the (truthy) inherited `Object.prototype`
member, else `undefined`. -/
def sectionMapLookup (s : String) : Option String :=
  match sectionMap s with
  | some r => some r
  | none =>
    if s ∈ objectPrototypeKeys then some (inheritedRefString s) else none

/-- `generateFrontPageTemplate(sections)`: per-section references (with the
generic pattern fallback `sectionMap[section] || ...`; own map values and
inherited members are truthy, so only genuinely absent keys fall back)
joined by newlines. -/
def generateFrontPageTemplate (sections : List String) : String :=
  String.intercalate "\n"
    (sections.map (fun sec =>
      (sectionMapLookup sec).getD
        ("<!-- wp:pattern \x7b\"slug\":\"" ++ sec ++ "\"\x7d /-->")))

/-! ### Theme assembler and generation orchestrator -/

/-- JSON encoding of one palette entry of `theme.json`
(`\x7bslug, name, color\x7d` with the capitalized display name). -/
def paletteEntryJson (token : ColorToken) : Json :=
  Json.obj [("slug", Json.str token.slug),
            ("name", Json.str (capitalizeFirst token.slug)),
            ("color", Json.str token.color)]

/-- JSON encoding of one font-size step of the fixed five-step scale. -/
def fontSizeJson (slug size name : String) : Json :=
  Json.obj [("slug", Json.str slug), ("size", Json.str size),
            ("name", Json.str name)]

/-- The `themeJson` object literal built inside `generateWordPressTheme`,
extracted as a definition (`palette` is the processed palette). -/
def buildThemeJson (project : Project) (palette : List ColorToken) : Json :=
  Json.obj
    [("version", Json.num 2),
     ("settings", Json.obj
       [("appearanceTools", Json.bool true),
        ("color", Json.obj
          [("palette", Json.arr (palette.map paletteEntryJson))]),
        ("typography", Json.obj
          [("fluid", Json.bool true),
           ("fontFamilies", Json.arr
             [Json.obj
               [("slug", Json.str "heading"),
                ("name", Json.str
                  (strOr ((project.brand.bind Brand.headingFont).bind
                    FontConfig.family) "Inter")),
                ("fontFamily", Json.str
                  (strOr ((project.brand.bind Brand.headingFont).bind
                    FontConfig.fallback) "Inter, system-ui, sans-serif"))],
              Json.obj
               [("slug", Json.str "body"),
                ("name", Json.str
                  (strOr ((project.brand.bind Brand.bodyFont).bind
                    FontConfig.family) "System UI")),
                ("fontFamily", Json.str
                  (strOr ((project.brand.bind Brand.bodyFont).bind
                    FontConfig.fallback) "system-ui, -apple-system, sans-serif"))]]),
           ("fontSizes", Json.arr
             [fontSizeJson "small" "14px" "Small",
              fontSizeJson "medium" "16px" "Medium",
              fontSizeJson "large" "20px" "Large",
              fontSizeJson "x-large" "32px" "Extra Large",
              fontSizeJson "xx-large" "48px" "XX Large"])]),
        ("spacing", Json.obj
          [("units", Json.arr
             [Json.str "px", Json.str "rem", Json.str "%", Json.str "vh",
              Json.str "vw"]),
           ("spacingScale", Json.obj [("steps", Json.num 7)])])]),
     ("styles", Json.obj
       [("color", Json.obj
          [("background", Json.str
             (strOr ((palette.find? (fun p => p.slug = "background")).map
               ColorToken.color) "#ffffff")),
           ("text", Json.str
             (strOr ((palette.find? (fun p => p.slug = "text")).map
               ColorToken.color) "#1f2937"))]),
        ("typography", Json.obj
          [("fontFamily", Json.str "var(--wp--preset--font-family--body)"),
           ("fontSize", Json.str "var(--wp--preset--font-size--medium)")])])]

/-- JSON encoding of the block-pattern list. -/
def encodePatterns (patterns : List BlockPattern) : Json :=
  Json.arr (patterns.map (fun p =>
    Json.obj [("slug", Json.str p.slug), ("title", Json.str p.title),
              ("html", Json.str p.html)]))

/-- The default front-page section order. -/
def defaultSections : List String :=
  ["header", "hero", "benefits", "about", "contact", "footer"]

/-- `generateWordPressTheme(input)`.  The `GenerationInput` wrapper is
destructured immediately (`forceRegenerate` is unused) and the `async`
wrapper never awaits anything impure, so the function is modelled directly
on the project. -/
noncomputable def generateWordPressTheme (project : Project) : GeneratedTheme :=
  let palette0 := listOr (project.brand.bind Brand.palette) []
  let primaryColor := strOr (project.brand.bind Brand.primary) "#3b82f6"
  let palette1 := harmonizeColors palette0 primaryColor
  let palette := validateAndFixContrasts palette1
  { themeJson := buildThemeJson project palette,
    patterns := encodePatterns (generateBlockPatterns project palette),
    templateFront := Json.str (generateFrontPageTemplate
      (listOr (project.layout.bind Layout.sections) defaultSections)) }

/-- `generateDeterministicTheme` (the `Promise.resolve` wrapper is dropped). -/
noncomputable def generateDeterministicTheme (project : Project) : GeneratedTheme :=
  generateWordPressTheme project

/-! ### JSON navigation helpers for the override merge -/

/-- JS property access `j.k`: `undefined` (`none`) unless `j` is an object
with that key (first occurrence; parsed JSON has unique keys). -/
def Json.getField : Json → String → Option Json
  | Json.obj fields, k => (fields.find? (fun kv => kv.1 = k)).map (fun kv => kv.2)
  | _, _ => none

/-- JS truthiness of a JSON value (objects and arrays are always truthy). -/
def Json.truthy : Json → Bool
  | Json.null => false
  | Json.bool b => b
  | Json.num q => q ≠ 0
  | Json.str s => s ≠ ""
  | Json.arr _ => true
  | Json.obj _ => true

/-- Optional chaining `o?.k` on a possibly-undefined value. -/
def optChain (o : Option Json) (k : String) : Option Json :=
  o.bind (fun j => j.getField k)

/-- JS `x || d` on a possibly-undefined JSON value. -/
def jsonOr (o : Option Json) (d : Json) : Json :=
  match o with
  | some j => if j.truthy then j else d
  | none => d

/-- Sets key `k` in an association list, as JS property assignment: replaces
the existing binding or appends a new one at the end. -/
def setAssoc : List (String × Json) → String → Json → List (String × Json)
  | [], k, v => [(k, v)]
  | (k', v') :: rest, k, v =>
    if k' = k then (k, v) :: rest else (k', v') :: setAssoc rest k v

/-- `p.color = c` on a palette entry (only objects can be assigned to; the
merge only assigns to entries that matched on `slug`, which are objects). -/
def setColorField (c : String) : Json → Json
  | Json.obj fields => Json.obj (setAssoc fields "color" (Json.str c))
  | j => j

/-- Functional rendering of the in-place array mutation along an existing
object path (the merge mutates `theme_json.settings.color.palette`). -/
def Json.setPath : Json → List String → Json → Json
  | _, [], v => v
  | Json.obj fields, k :: ks, v =>
    Json.obj (fields.map (fun kv =>
      if kv.1 = k then (kv.1, Json.setPath kv.2 ks v) else kv))
  | j, _ :: _, _ => j

/-- Replaces the element at an index (no-op when out of range). -/
def modifyAt {α : Type} (f : α → α) : Nat → List α → List α
  | _, [] => []
  | 0, x :: xs => f x :: xs
  | n + 1, x :: xs => x :: modifyAt f n xs

/-- Reading `p.slug` on a candidate palette entry: `none` models the
`TypeError` thrown when the entry is `null` (parsed JSON arrays can contain
`null`); otherwise the value of the `slug` field (or `undefined`). -/
def slugKey : Json → Option (Option Json)
  | Json.null => none
  | p => some (p.getField "slug")

/-- The predicate `p => p.slug === locked.slug` of the merge: reading `p.slug`
throws a `TypeError` on a `null` entry (`Except.error`); otherwise the strict
equality against a string is true only when `p.slug` is that string. -/
def entryMatchesSlug (slug : String) (p : Json) : Except Unit Bool :=
  match slugKey p with
  | none => Except.error ()
  | some (some (Json.str s)) => Except.ok (s = slug)
  | some _ => Except.ok false

/-- JS `Array.prototype.findIndex` over a predicate that can throw: elements
are tested in order, an exception aborts the scan, and −1 becomes `none`. -/
def jsFindIndexE {α : Type} (p : α → Except Unit Bool) :
    List α → Except Unit (Option Nat)
  | [] => Except.ok none
  | x :: xs =>
    match p x with
    | Except.error e => Except.error e
    | Except.ok true => Except.ok (some 0)
    | Except.ok false =>
      match jsFindIndexE p xs with
      | Except.error e => Except.error e
      | Except.ok o => Except.ok (o.map (fun i => i + 1))

/-- `project.brand?.palette?.filter(p => p.locked) || []`. -/
def lockedColorsOf (project : Project) : List ColorToken :=
  match project.brand.bind Brand.palette with
  | some palette => palette.filter (fun p => p.locked)
  | none => []

/-- One iteration of `lockedColors.forEach(...)`: find the first candidate
entry with the locked slug and overwrite its `color`; the scan throws if it
reads `.slug` of a `null` entry before finding a match. -/
def mergeStep (entries : List Json) (locked : ColorToken) :
    Except Unit (List Json) :=
  match jsFindIndexE (entryMatchesSlug locked.slug) entries with
  | Except.error e => Except.error e
  | Except.ok (some i) => Except.ok (modifyAt (setColorField locked.color) i entries)
  | Except.ok none => Except.ok entries

/-- The whole `forEach` loop over the locked colors; an exception in any
iteration propagates (any mutations already performed are discarded with the
override by the caller's catch). -/
def mergeLockedIntoList : List Json → List ColorToken → Except Unit (List Json)
  | entries, [] => Except.ok entries
  | entries, lk :: rest =>
    match mergeStep entries lk with
    | Except.error e => Except.error e
    | Except.ok es => mergeLockedIntoList es rest

/-- The path `aiTheme.theme_json?.settings?.color?.palette`. -/
def candidatePalette (aiTheme : Json) : Option Json :=
  optChain (optChain (optChain (aiTheme.getField "theme_json") "settings")
    "color") "palette"

/-- `mergeWithLockedColors(aiTheme, project)`.  `Except.error` models the
`TypeError`s the JS body can throw — property access on a `null` root,
`findIndex` on a truthy non-array palette, and the predicate reading `.slug`
of a `null` palette entry — all of which the caller catches. -/
def mergeWithLockedColors (aiTheme : Json) (project : Project) :
    Except Unit GeneratedTheme :=
  match aiTheme with
  | Json.null => Except.error ()
  | _ =>
    let lockedColors := lockedColorsOf project
    let tj := aiTheme.getField "theme_json"
    let palOpt := candidatePalette aiTheme
    let tjAfter : Except Unit (Option Json) :=
      if ((palOpt.map Json.truthy).getD false) && !lockedColors.isEmpty then
        match palOpt with
        | some (Json.arr entries) =>
          match mergeLockedIntoList entries lockedColors with
          | Except.error e => Except.error e
          | Except.ok merged =>
            Except.ok (tj.map (fun t =>
              t.setPath ["settings", "color", "palette"] (Json.arr merged)))
        | _ => Except.error ()
      else Except.ok tj
    match tjAfter with
    | Except.error e => Except.error e
    | Except.ok tjv =>
      Except.ok
        { themeJson := jsonOr tjv (Json.obj []),
          patterns := jsonOr (aiTheme.getField "patterns") (Json.arr []),
          templateFront := jsonOr (aiTheme.getField "template_front") (Json.str "") }

/-- `parseAIResponse(response, project)`.  The JS function extracts the
first-`\x7b`-to-last-`\x7d` substring of the response with a regex and runs the
platform builtin `JSON.parse` on it; that string-level step is modelled by the
`parsed : Option Json` argument (`none` = no braces found, or `JSON.parse`
threw).  Every failure path, including an exception from the merge, falls
back to the deterministic theme. -/
noncomputable def parseAIResponse (parsed : Option Json) (project : Project) :
    GeneratedTheme :=
  match parsed with
  | none => generateDeterministicTheme project
  | some j =>
    match mergeWithLockedColors j project with
    | Except.ok t => t
    | Except.error _ => generateDeterministicTheme project

/-! ### Evaluation lemmas for the color math -/

theorem hexToRgb_black : hexToRgb "#000000" = some (0, 0, 0) := by decide

theorem hexToRgb_white : hexToRgb "#ffffff" = some (255, 255, 255) := by decide

theorem hexToRgb_gray : hexToRgb "#787878" = some (120, 120, 120) := by decide

theorem srgbChannel_zero : srgbChannel 0 = 0 := by
  rw [srgbChannel]
  norm_num

theorem srgbChannel_255 : srgbChannel 255 = 1 := by
  rw [srgbChannel]
  rw [show (((255 : ℕ) : ℝ)) = 255 from by norm_num]
  have h : ¬ ((255 : ℝ) / 255 ≤ 0.03928) := by norm_num
  rw [if_neg h]
  have h2 : ((255 : ℝ) / 255 + 0.055) / 1.055 = 1 := by norm_num
  rw [h2, Real.one_rpow]

theorem srgbChannel_nonneg (v : Nat) : 0 ≤ srgbChannel v := by
  rw [srgbChannel]
  split
  · positivity
  · exact Real.rpow_nonneg (by positivity) _

theorem getLuminance_black : getLuminance "#000000" = 0 := by
  simp only [getLuminance, hexToRgb_black, srgbChannel_zero]
  ring

theorem getLuminance_white : getLuminance "#ffffff" = 1 := by
  simp only [getLuminance, hexToRgb_white, srgbChannel_255]
  norm_num

theorem getLuminance_nonneg (s : String) : 0 ≤ getLuminance s := by
  cases h : hexToRgb s with
  | none => simp [getLuminance, h]
  | some rgb =>
    obtain ⟨r, g, b⟩ := rgb
    simp only [getLuminance, h]
    have hr := srgbChannel_nonneg r
    have hg := srgbChannel_nonneg g
    have hb := srgbChannel_nonneg b
    linarith

theorem getLuminance_gray :
    getLuminance "#787878" = ((1787 : ℝ) / 3587) ^ (2.4 : ℝ) := by
  simp only [getLuminance, hexToRgb_gray]
  have hc : srgbChannel 120 = ((1787 : ℝ) / 3587) ^ (2.4 : ℝ) := by
    rw [srgbChannel]
    rw [show (((120 : ℕ) : ℝ)) = 120 from by norm_num]
    have h : ¬ ((120 : ℝ) / 255 ≤ 0.03928) := by norm_num
    rw [if_neg h]
    rw [show ((120 : ℝ) / 255 + 0.055) / 1.055 = 1787 / 3587 from by norm_num]
  rw [hc]
  ring

theorem grayPow_lemma :
    ((((1787 : ℝ) / 3587) ^ (2.4 : ℝ)) : ℝ) ^ (5 : ℕ) =
      (((1787 : ℝ) / 3587)) ^ (12 : ℕ) := by
  have hq : (0 : ℝ) ≤ 1787 / 3587 := by norm_num
  rw [← Real.rpow_natCast (((1787 : ℝ) / 3587) ^ (2.4 : ℝ)) 5,
    ← Real.rpow_mul hq, ← Real.rpow_natCast ((1787 : ℝ) / 3587) 12]
  norm_num

theorem grayLum_gt : (0.1 : ℝ) < ((1787 : ℝ) / 3587) ^ (2.4 : ℝ) := by
  have h0 : (0 : ℝ) ≤ ((1787 : ℝ) / 3587) ^ (2.4 : ℝ) :=
    Real.rpow_nonneg (by norm_num) _
  have h5 : ((0.1 : ℝ)) ^ (5 : ℕ) < (((1787 : ℝ) / 3587) ^ (2.4 : ℝ)) ^ (5 : ℕ) := by
    rw [grayPow_lemma]
    norm_num
  exact lt_of_pow_lt_pow_left 5 h0 h5

theorem grayLum_lt : ((1787 : ℝ) / 3587) ^ (2.4 : ℝ) < (0.3 : ℝ) := by
  have h5 : (((1787 : ℝ) / 3587) ^ (2.4 : ℝ)) ^ (5 : ℕ) < ((0.3 : ℝ)) ^ (5 : ℕ) := by
    rw [grayPow_lemma]
    norm_num
  exact lt_of_pow_lt_pow_left 5 (by norm_num) h5

/-! ### Structure lemmas for the contrast corrector -/

theorem firstMeeting_spec (background : String) (t : ℝ) (l : List String)
    (c : String) (h : firstMeeting background t l = some c) :
    getContrastRatio c background ≥ t := by
  induction l with
  | nil => simp [firstMeeting] at h
  | cons x xs ih =>
    rw [firstMeeting] at h
    split at h
    · cases h
      assumption
    · exact ih h

theorem firstMeeting_none_of (background : String) (t : ℝ) (l : List String)
    (h : ∀ c ∈ l, ¬ getContrastRatio c background ≥ t) :
    firstMeeting background t l = none := by
  induction l with
  | nil => rfl
  | cons x xs ih =>
    rw [firstMeeting, if_neg (h x (by simp))]
    exact ih (fun c hc => h c (by simp [hc]))

theorem jsRound_natCast (n : ℕ) : jsRound ((n : ℕ) : ℚ) = (n : ℤ) := by
  rw [jsRound]
  rw [show ((n : ℕ) : ℚ) = (((n : ℤ) : ℤ) : ℚ) from by push_cast; ring]
  rw [Int.floor_int_add]
  norm_num

theorem rgbToHex_natCast (r g b : ℕ) :
    rgbToHex (r : ℚ) (g : ℚ) (b : ℚ) =
      "#" ++ byteHexInt (r : ℤ) ++ byteHexInt (g : ℤ) ++ byteHexInt (b : ℤ) := by
  rw [rgbToHex, byteHex, byteHex, byteHex, jsRound_natCast, jsRound_natCast,
    jsRound_natCast]

theorem scaleChannel_zero (k : ℕ) : scaleChannel 0 k = 0 := by
  simp [scaleChannel]

theorem darkCandidate_black (k : ℕ) : darkCandidate 0 0 0 k = "#000000" := by
  simp only [darkCandidate, scaleChannel_zero]
  rw [rgbToHex_natCast]
  decide

theorem lightCandidate_black (k : ℕ) : lightCandidate 0 0 0 k = "#000000" := by
  simp only [lightCandidate, scaleChannel_zero, min_zero]
  rw [rgbToHex_natCast]
  decide

/-! ### Claims C2 and C8 -/

/-- Claim C8: whenever `contrastRatio(color, background) >= 4.5` already
holds, `adjustLightnessForContrast(color, background, 4.5)` returns `color`
itself unchanged. -/
theorem claim8_compliant_input_unchanged (color background : String)
    (h : getContrastRatio color background ≥ 4.5) :
    adjustLightnessForContrast color background 4.5 = color := by
  rw [adjustLightnessForContrast, if_pos h]

theorem contrast_black_white : getContrastRatio "#000000" "#ffffff" = 21 := by
  rw [getContrastRatio, getLuminance_black, getLuminance_white]
  rw [max_eq_right (by norm_num : (0:ℝ) ≤ 1), min_eq_left (by norm_num : (0:ℝ) ≤ 1)]
  norm_num

theorem claim8_witness :
    getContrastRatio "#000000" "#ffffff" ≥ 4.5 ∧
      adjustLightnessForContrast "#000000" "#ffffff" 4.5 = "#000000" := by
  have h : getContrastRatio "#000000" "#ffffff" ≥ 4.5 := by
    rw [contrast_black_white]
    norm_num
  exact ⟨h, claim8_compliant_input_unchanged "#000000" "#ffffff" h⟩

/-- Claim C2 is false as stated: at target ratio 7 (inside the claimed range
1.0 - 7.0), a pure black input over the mid-dark background `#787878` defeats
both scaling searches (every scaled candidate of black is black again) and the
white fallback only reaches a ratio of about 4.4.  This theorem exhibits the
failure: the function returns `#ffffff`, whose contrast ratio against the
background is below the requested 7. -/
theorem claim2_counterexample :
    adjustLightnessForContrast "#000000" "#787878" 7 = "#ffffff" ∧
      getContrastRatio "#ffffff" "#787878" < 7 := by
  have hb0 : (0 : ℝ) ≤ ((1787 : ℝ) / 3587) ^ (2.4 : ℝ) :=
    Real.rpow_nonneg (by norm_num) _
  have hgt := grayLum_gt
  have hlt := grayLum_lt
  have hLg := getLuminance_gray
  have hUnder : getContrastRatio "#000000" "#787878" < 7 := by
    rw [getContrastRatio, getLuminance_black, hLg]
    rw [max_eq_right hb0, min_eq_left hb0]
    rw [div_lt_iff (by norm_num)]
    linarith
  have hWhite : getContrastRatio "#ffffff" "#787878" < 7 := by
    rw [getContrastRatio, getLuminance_white, hLg]
    rw [max_eq_left (by linarith), min_eq_right (by linarith)]
    rw [div_lt_iff (by linarith)]
    linarith
  refine ⟨?_, hWhite⟩
  rw [adjustLightnessForContrast, if_neg (not_le.mpr hUnder)]
  simp only [hexToRgb_black]
  have hdark : firstMeeting "#787878" 7 (darkCandidates 0 0 0) = none := by
    apply firstMeeting_none_of
    intro c hc
    simp only [darkCandidates, List.mem_map] at hc
    obtain ⟨k, _, rfl⟩ := hc
    rw [darkCandidate_black]
    exact not_le.mpr hUnder
  have hlight : firstMeeting "#787878" 7 (lightCandidates 0 0 0) = none := by
    apply firstMeeting_none_of
    intro c hc
    simp only [lightCandidates, List.mem_map] at hc
    obtain ⟨k, _, rfl⟩ := hc
    rw [lightCandidate_black]
    exact not_le.mpr hUnder
  rw [hdark, hlight]
  rw [hLg]
  rw [if_neg (not_lt.mpr (by linarith))]

/-- Claim C2 (amended): the contrast guarantee of
`adjustLightnessForContrast(color, background, r)` holds for every valid hex
`color` and every target ratio `r` up to 21/11 ≈ 1.909 — the worst case of the
white fallback — but not on the whole claimed range 1.0 - 7.0.  (When a search
loop succeeds its candidate meets `r` by construction, and the black fallback
always exceeds ratio 11, so 21/11 is exactly what the `#ffffff` fallback
guarantees against backgrounds with luminance at most 0.5.) -/
theorem claim2_contrast_guarantee (color background : String) (r : ℝ)
    (hc : hexToRgb color ≠ none) (_h1 : 1 ≤ r) (h2 : r ≤ 21 / 11) :
    getContrastRatio (adjustLightnessForContrast color background r)
      background ≥ r := by
  have hb0 : 0 ≤ getLuminance background := getLuminance_nonneg background
  rw [adjustLightnessForContrast]
  split
  case isTrue h => exact h
  case isFalse hno =>
    cases hx : hexToRgb color with
    | none => exact absurd hx hc
    | some rgb =>
      obtain ⟨cr, cg, cb⟩ := rgb
      simp only
      cases hd : firstMeeting background r (darkCandidates cr cg cb) with
      | some c =>
        simp only
        exact firstMeeting_spec background r _ c hd
      | none =>
        simp only
        cases hl : firstMeeting background r (lightCandidates cr cg cb) with
        | some c =>
          simp only
          exact firstMeeting_spec background r _ c hl
        | none =>
          simp only
          split
          case isTrue hbl =>
            rw [getContrastRatio, getLuminance_black]
            rw [max_eq_right hb0, min_eq_left hb0]
            rw [ge_iff_le, le_div_iff (by norm_num)]
            nlinarith
          case isFalse hbl =>
            rw [not_lt] at hbl
            rw [getContrastRatio, getLuminance_white]
            rw [max_eq_left (by linarith), min_eq_right (by linarith)]
            rw [ge_iff_le, le_div_iff (by linarith)]
            have key : r * (getLuminance background + 0.05) ≤ (21 / 11) * 0.55 :=
              mul_le_mul h2 (by linarith) (by linarith) (by norm_num)
            linarith

theorem claim2_witness :
    hexToRgb "#000000" ≠ none ∧ (1 : ℝ) ≤ 1 ∧ (1 : ℝ) ≤ 21 / 11 ∧
      getContrastRatio (adjustLightnessForContrast "#000000" "#787878" 1)
        "#787878" ≥ 1 := by
  have hc : hexToRgb "#000000" ≠ none := by
    rw [hexToRgb_black]
    exact Option.some_ne_none _
  exact ⟨hc, le_refl 1, by norm_num,
    claim2_contrast_guarantee "#000000" "#787878" 1 hc (le_refl 1) (by norm_num)⟩

/-! ### Lemmas about the JSON merge machinery -/

theorem modifyAt_length {α : Type} (f : α → α) (i : ℕ) (l : List α) :
    (modifyAt f i l).length = l.length := by
  induction l generalizing i with
  | nil => cases i <;> rfl
  | cons x xs ih => cases i with
    | zero => rfl
    | succ n => simpa [modifyAt] using ih n

theorem modifyAt_getElem?_ne {α : Type} (f : α → α) (i j : ℕ) (l : List α)
    (h : j ≠ i) : (modifyAt f i l)[j]? = l[j]? := by
  induction l generalizing i j with
  | nil => cases i <;> rfl
  | cons x xs ih =>
    cases i with
    | zero =>
      cases j with
      | zero => exact absurd rfl h
      | succ m => simp [modifyAt]
    | succ n =>
      cases j with
      | zero => simp [modifyAt]
      | succ m => simpa [modifyAt] using ih n m (fun hc => h (by rw [hc]))

theorem modifyAt_getElem?_self {α : Type} (f : α → α) (i : ℕ) (l : List α) :
    (modifyAt f i l)[i]? = (l[i]?).map f := by
  induction l generalizing i with
  | nil => cases i <;> rfl
  | cons x xs ih => cases i with
    | zero => simp [modifyAt]
    | succ n => simpa [modifyAt] using ih n

theorem jsFindIndexE_some_spec {α : Type} (p : α → Except Unit Bool)
    (l : List α) (i : ℕ) (h : jsFindIndexE p l = Except.ok (some i)) :
    ∃ x, l[i]? = some x ∧ p x = Except.ok true := by
  induction l generalizing i with
  | nil => simp [jsFindIndexE] at h
  | cons a as ih =>
    rw [jsFindIndexE] at h
    cases hp : p a with
    | error e => rw [hp] at h; exact Except.noConfusion h
    | ok b =>
      rw [hp] at h
      cases b with
      | true =>
        simp only [Except.ok.injEq, Option.some.injEq] at h
        subst h
        exact ⟨a, by simp, hp⟩
      | false =>
        cases hr : jsFindIndexE p as with
        | error e => rw [hr] at h; exact Except.noConfusion h
        | ok o =>
          rw [hr] at h
          simp only [Except.ok.injEq] at h
          obtain ⟨i', hi', rfl⟩ := Option.map_eq_some'.mp h
          obtain ⟨x, hx, hpx⟩ := ih i' (by rw [hr, hi'])
          exact ⟨x, by simpa using hx, hpx⟩

theorem entryMatchesSlug_congr (p q : Json) (s : String)
    (h : slugKey p = slugKey q) :
    entryMatchesSlug s p = entryMatchesSlug s q := by
  rw [entryMatchesSlug, entryMatchesSlug, h]

theorem slugKey_eq_getField (x : Json) (o : Option Json)
    (h : slugKey x = some o) : x.getField "slug" = o := by
  cases x with
  | null => exact Option.noConfusion h
  | bool b => exact Option.some_injective _ h
  | num q => exact Option.some_injective _ h
  | str s => exact Option.some_injective _ h
  | arr l => exact Option.some_injective _ h
  | obj fields => exact Option.some_injective _ h

theorem entryMatchesSlug_ok_true (s : String) (x : Json)
    (h : entryMatchesSlug s x = Except.ok true) :
    x.getField "slug" = some (Json.str s) := by
  rw [entryMatchesSlug] at h
  cases hk : slugKey x with
  | none => rw [hk] at h; exact Except.noConfusion h
  | some o =>
    rw [hk] at h
    cases o with
    | none => simp at h
    | some v =>
      cases v with
      | str s' =>
        simp only [Except.ok.injEq, decide_eq_true_eq] at h
        rw [slugKey_eq_getField x _ hk, h]
      | null => simp at h
      | bool b => simp at h
      | num q => simp at h
      | arr l => simp at h
      | obj f => simp at h

theorem entryMatchesSlug_ne_null (s : String) (x : Json) (h : x ≠ Json.null) :
    ∃ b, entryMatchesSlug s x = Except.ok b := by
  rw [entryMatchesSlug]
  cases hk : slugKey x with
  | none =>
    exfalso
    apply h
    cases x with
    | null => rfl
    | bool b => exact Option.noConfusion hk
    | num q => exact Option.noConfusion hk
    | str s' => exact Option.noConfusion hk
    | arr l => exact Option.noConfusion hk
    | obj f => exact Option.noConfusion hk
  | some o =>
    cases o with
    | none => exact ⟨false, rfl⟩
    | some v =>
      cases v with
      | str s' => exact ⟨_, rfl⟩
      | null => exact ⟨false, rfl⟩
      | bool b => exact ⟨false, rfl⟩
      | num q => exact ⟨false, rfl⟩
      | arr l => exact ⟨false, rfl⟩
      | obj f => exact ⟨false, rfl⟩

theorem getField_some_obj {j : Json} {k : String} {v : Json}
    (h : j.getField k = some v) : ∃ fields, j = Json.obj fields := by
  cases j with
  | obj fields => exact ⟨fields, rfl⟩
  | null => simp [Json.getField] at h
  | bool b => simp [Json.getField] at h
  | num q => simp [Json.getField] at h
  | str s => simp [Json.getField] at h
  | arr l => simp [Json.getField] at h

theorem setAssoc_find?_ne (fields : List (String × Json)) (k : String) (v : Json)
    (k' : String) (h : k' ≠ k) :
    (setAssoc fields k v).find? (fun kv => kv.1 = k') =
      fields.find? (fun kv => kv.1 = k') := by
  induction fields with
  | nil => simp [setAssoc, List.find?, Ne.symm h]
  | cons hd tl ih =>
    by_cases hk : hd.1 = k
    · rw [setAssoc, if_pos hk]
      rw [List.find?, List.find?]
      rw [show (decide (k = k') : Bool) = false from by simp [Ne.symm h]]
      rw [show (decide (hd.1 = k') : Bool) = false from by simp [hk, Ne.symm h]]
    · rw [setAssoc, if_neg hk]
      rw [List.find?, List.find?]
      cases hd1 : (decide (hd.1 = k') : Bool) with
      | true => rfl
      | false => exact ih

theorem setAssoc_find?_self (fields : List (String × Json)) (k : String)
    (v : Json) :
    (setAssoc fields k v).find? (fun kv => kv.1 = k) = some (k, v) := by
  induction fields with
  | nil => simp [setAssoc, List.find?]
  | cons hd tl ih =>
    by_cases hk : hd.1 = k
    · rw [setAssoc, if_pos hk]
      simp [List.find?]
    · rw [setAssoc, if_neg hk]
      rw [List.find?]
      rw [show (decide (hd.1 = k) : Bool) = false from by simp [hk]]
      exact ih

theorem setColorField_getField_slug (c : String) (p : Json) :
    (setColorField c p).getField "slug" = p.getField "slug" := by
  cases p with
  | obj fields =>
    rw [setColorField, Json.getField, Json.getField]
    rw [setAssoc_find?_ne fields "color" (Json.str c) "slug" (by decide)]
  | null => rfl
  | bool b => rfl
  | num q => rfl
  | str s => rfl
  | arr l => rfl

theorem setColorField_getField_color (c : String) (fields : List (String × Json)) :
    (setColorField c (Json.obj fields)).getField "color" = some (Json.str c) := by
  rw [setColorField, Json.getField, setAssoc_find?_self]
  rfl

/-- The invariant preserved by the merge loop: same length and pointwise-equal
observables of the scan (null-ness and `slug` field). -/
def slugsAligned (l₁ l₂ : List Json) : Prop :=
  l₁.length = l₂.length ∧
    ∀ j : ℕ, (l₁[j]?).map slugKey = (l₂[j]?).map slugKey

theorem slugsAligned_refl (l : List Json) : slugsAligned l l :=
  ⟨rfl, fun _ => rfl⟩

theorem slugsAligned_trans {l₁ l₂ l₃ : List Json} (h₁ : slugsAligned l₁ l₂)
    (h₂ : slugsAligned l₂ l₃) : slugsAligned l₁ l₃ :=
  ⟨h₁.1.trans h₂.1, fun j => (h₁.2 j).trans (h₂.2 j)⟩

theorem setColorField_slugKey (c : String) (p : Json) :
    slugKey (setColorField c p) = slugKey p := by
  cases p with
  | null => rfl
  | bool b => rfl
  | num q => rfl
  | str s => rfl
  | arr l => rfl
  | obj fields => exact congrArg some (setColorField_getField_slug c (Json.obj fields))

theorem mergeStep_aligned (es es' : List Json) (lk : ColorToken)
    (h : mergeStep es lk = Except.ok es') : slugsAligned es es' := by
  rw [mergeStep] at h
  cases hf : jsFindIndexE (entryMatchesSlug lk.slug) es with
  | error e => rw [hf] at h; exact Except.noConfusion h
  | ok o =>
    rw [hf] at h
    cases o with
    | none =>
      simp only [Except.ok.injEq] at h
      subst h
      exact slugsAligned_refl es
    | some i =>
      simp only [Except.ok.injEq] at h
      subst h
      refine ⟨(modifyAt_length _ i es).symm, fun j => ?_⟩
      by_cases hj : j = i
      · subst hj
        rw [modifyAt_getElem?_self]
        cases hx : es[j]? with
        | none => rfl
        | some p =>
          simp only [Option.map_some']
          rw [setColorField_slugKey]
      · rw [modifyAt_getElem?_ne _ _ _ _ hj]

theorem mergeLocked_aligned (locked : List ColorToken) (es out : List Json)
    (h : mergeLockedIntoList es locked = Except.ok out) : slugsAligned es out := by
  induction locked generalizing es with
  | nil =>
    rw [mergeLockedIntoList] at h
    simp only [Except.ok.injEq] at h
    subst h
    exact slugsAligned_refl es
  | cons lk rest ih =>
    rw [mergeLockedIntoList] at h
    cases hs : mergeStep es lk with
    | error e => rw [hs] at h; exact Except.noConfusion h
    | ok es' =>
      rw [hs] at h
      exact slugsAligned_trans (mergeStep_aligned es es' lk hs) (ih es' h)

theorem jsFindIndexE_slug_eq (s : String) (l₁ l₂ : List Json)
    (h : slugsAligned l₁ l₂) :
    jsFindIndexE (entryMatchesSlug s) l₂ = jsFindIndexE (entryMatchesSlug s) l₁ := by
  induction l₁ generalizing l₂ with
  | nil =>
    cases l₂ with
    | nil => rfl
    | cons y ys => exact absurd h.1 (by simp)
  | cons x xs ih =>
    cases l₂ with
    | nil => exact absurd h.1 (by simp)
    | cons y ys =>
      have h0 := h.2 0
      simp only [List.getElem?_cons_zero, Option.map_some'] at h0
      have hhead : entryMatchesSlug s y = entryMatchesSlug s x :=
        entryMatchesSlug_congr y x s (Option.some_injective _ h0).symm
      have htail : slugsAligned xs ys := by
        refine ⟨by simpa using h.1, fun j => ?_⟩
        have hj := h.2 (j + 1)
        simpa using hj
      rw [jsFindIndexE, jsFindIndexE, hhead]
      cases hp : entryMatchesSlug s x with
      | error e => rfl
      | ok b =>
        cases b with
        | true => rfl
        | false => rw [ih ys htail]

theorem mergeLocked_preserves_color (locked : List ColorToken)
    (es out : List Json) (j : ℕ) (s c : String)
    (hout : mergeLockedIntoList es locked = Except.ok out)
    (hj : ∃ p, es[j]? = some p ∧ p.getField "slug" = some (Json.str s) ∧
      p.getField "color" = some (Json.str c))
    (hlk : ∀ lk ∈ locked, lk.slug = s → lk.color = c) :
    ∃ q, out[j]? = some q ∧
      q.getField "slug" = some (Json.str s) ∧
      q.getField "color" = some (Json.str c) := by
  induction locked generalizing es with
  | nil =>
    rw [mergeLockedIntoList] at hout
    simp only [Except.ok.injEq] at hout
    subst hout
    exact hj
  | cons lk rest ih =>
    rw [mergeLockedIntoList] at hout
    cases hs : mergeStep es lk with
    | error e => rw [hs] at hout; exact Except.noConfusion hout
    | ok es' =>
      rw [hs] at hout
      obtain ⟨p, hp, hps, hpc⟩ := hj
      have hstep : ∃ q, es'[j]? = some q ∧
          q.getField "slug" = some (Json.str s) ∧
          q.getField "color" = some (Json.str c) := by
        rw [mergeStep] at hs
        cases hf : jsFindIndexE (entryMatchesSlug lk.slug) es with
        | error e => rw [hf] at hs; exact Except.noConfusion hs
        | ok o =>
          rw [hf] at hs
          cases o with
          | none =>
            simp only [Except.ok.injEq] at hs
            subst hs
            exact ⟨p, hp, hps, hpc⟩
          | some i =>
            simp only [Except.ok.injEq] at hs
            subst hs
            by_cases hij : j = i
            · subst hij
              obtain ⟨x, hx, hpx⟩ := jsFindIndexE_some_spec _ _ _ hf
              rw [hp] at hx
              cases hx
              have hxslug := entryMatchesSlug_ok_true _ _ hpx
              have hslk : lk.slug = s := by
                rw [hps] at hxslug
                exact (Json.str.injEq _ _).mp
                  (Option.some_injective _ hxslug).symm
              have hclk : lk.color = c := hlk lk (by simp) hslk
              obtain ⟨fields, rfl⟩ := getField_some_obj hps
              refine ⟨setColorField lk.color (Json.obj fields), ?_, ?_, ?_⟩
              · rw [modifyAt_getElem?_self, hp, Option.map_some']
              · rw [setColorField_getField_slug]
                exact hps
              · rw [hclk, setColorField_getField_color]
            · exact ⟨p, by rw [modifyAt_getElem?_ne _ _ _ _ hij, hp], hps, hpc⟩
      exact ih es' hout hstep (fun lk' h' hs' => hlk lk' (by simp [h']) hs')

theorem mergeLocked_sets_color (locked : List ColorToken)
    (entries out : List Json) (t : ColorToken) (j : ℕ)
    (hmem : t ∈ locked)
    (huni : ∀ lk ∈ locked, lk.slug = t.slug → lk.color = t.color)
    (hfind : jsFindIndexE (entryMatchesSlug t.slug) entries =
      Except.ok (some j))
    (hout : mergeLockedIntoList entries locked = Except.ok out) :
    ∃ q, out[j]? = some q ∧
      q.getField "slug" = some (Json.str t.slug) ∧
      q.getField "color" = some (Json.str t.color) := by
  induction locked generalizing entries with
  | nil => simp at hmem
  | cons lk rest ih =>
    rw [mergeLockedIntoList] at hout
    cases hs : mergeStep entries lk with
    | error e => rw [hs] at hout; exact Except.noConfusion hout
    | ok es' =>
      rw [hs] at hout
      by_cases hslug : lk.slug = t.slug
      · -- this iteration overwrites the entry at `j` with `lk.color = t.color`
        have hclk : lk.color = t.color := huni lk (by simp) hslug
        have hs' : es' = modifyAt (setColorField lk.color) j entries := by
          rw [mergeStep, hslug, hfind] at hs
          simp only [Except.ok.injEq] at hs
          exact hs.symm
        obtain ⟨x, hx, hpx⟩ := jsFindIndexE_some_spec _ _ _ hfind
        have hxslug := entryMatchesSlug_ok_true _ _ hpx
        obtain ⟨fields, rfl⟩ := getField_some_obj hxslug
        refine mergeLocked_preserves_color rest es' out j t.slug t.color hout
          ⟨setColorField lk.color (Json.obj fields), ?_, ?_, ?_⟩
          (fun lk' h' hs'' => huni lk' (by simp [h']) hs'')
        · rw [hs', modifyAt_getElem?_self, hx, Option.map_some']
        · rw [setColorField_getField_slug]
          exact hxslug
        · rw [hclk, setColorField_getField_color]
      · -- a different slug: the entry at `j` is untouched this iteration
        have hmem' : t ∈ rest := by
          rcases List.mem_cons.mp hmem with h | h
          · exact absurd (by rw [h]) hslug
          · exact h
        have hfind' : jsFindIndexE (entryMatchesSlug t.slug) es' =
            Except.ok (some j) := by
          rw [jsFindIndexE_slug_eq t.slug entries es'
            (mergeStep_aligned entries es' lk hs), hfind]
        exact ih es' hmem'
          (fun lk' h' hs'' => huni lk' (by simp [h']) hs'') hfind' hout

theorem mergeLocked_frame (locked : List ColorToken) (es out : List Json)
    (k : ℕ) (p : Json)
    (hout : mergeLockedIntoList es locked = Except.ok out)
    (hk : es[k]? = some p)
    (hnm : ∀ lk ∈ locked, entryMatchesSlug lk.slug p = Except.ok false) :
    out[k]? = some p := by
  induction locked generalizing es with
  | nil =>
    rw [mergeLockedIntoList] at hout
    simp only [Except.ok.injEq] at hout
    subst hout
    exact hk
  | cons lk rest ih =>
    rw [mergeLockedIntoList] at hout
    cases hs : mergeStep es lk with
    | error e => rw [hs] at hout; exact Except.noConfusion hout
    | ok es' =>
      rw [hs] at hout
      have hstep : es'[k]? = some p := by
        rw [mergeStep] at hs
        cases hf : jsFindIndexE (entryMatchesSlug lk.slug) es with
        | error e => rw [hf] at hs; exact Except.noConfusion hs
        | ok o =>
          rw [hf] at hs
          cases o with
          | none =>
            simp only [Except.ok.injEq] at hs
            subst hs
            exact hk
          | some i =>
            simp only [Except.ok.injEq] at hs
            subst hs
            by_cases hik : k = i
            · subst hik
              obtain ⟨x, hx, hpx⟩ := jsFindIndexE_some_spec _ _ _ hf
              rw [hk] at hx
              cases hx
              rw [hnm lk (by simp)] at hpx
              simp at hpx
            · rw [modifyAt_getElem?_ne _ _ _ _ hik, hk]
      exact ih es' hout hstep (fun lk' h' => hnm lk' (by simp [h']))

theorem setColorField_ne_null (c : String) (p : Json) (h : p ≠ Json.null) :
    setColorField c p ≠ Json.null := by
  cases p with
  | null => exact absurd rfl h
  | obj fields => exact fun hc => Json.noConfusion hc
  | bool b => exact h
  | num q => exact h
  | str s => exact h
  | arr l => exact h

theorem modifyAt_noNull (f : Json → Json) (i : ℕ) (l : List Json)
    (h : ∀ p ∈ l, p ≠ Json.null) (hf : ∀ p, p ≠ Json.null → f p ≠ Json.null) :
    ∀ p ∈ modifyAt f i l, p ≠ Json.null := by
  induction l generalizing i with
  | nil => intro p hp; cases i <;> simp [modifyAt] at hp
  | cons x xs ih =>
    intro p hp
    cases i with
    | zero =>
      rw [modifyAt] at hp
      rcases List.mem_cons.mp hp with h' | h'
      · rw [h']
        exact hf x (h x (by simp))
      · exact h p (by simp [h'])
    | succ n =>
      rw [modifyAt] at hp
      rcases List.mem_cons.mp hp with h' | h'
      · rw [h']
        exact h x (by simp)
      · exact ih n (fun q hq => h q (by simp [hq])) p h'

theorem jsFindIndexE_ok_of_noNull (s : String) (l : List Json)
    (h : ∀ p ∈ l, p ≠ Json.null) :
    ∃ o, jsFindIndexE (entryMatchesSlug s) l = Except.ok o := by
  induction l with
  | nil => exact ⟨none, rfl⟩
  | cons x xs ih =>
    obtain ⟨b, hb⟩ := entryMatchesSlug_ne_null s x (h x (by simp))
    rw [jsFindIndexE, hb]
    cases b with
    | true => exact ⟨some 0, rfl⟩
    | false =>
      obtain ⟨o, ho⟩ := ih (fun p hp => h p (by simp [hp]))
      rw [ho]
      exact ⟨o.map (fun i => i + 1), rfl⟩

theorem mergeStep_noNull (es : List Json) (lk : ColorToken)
    (h : ∀ p ∈ es, p ≠ Json.null) :
    ∃ es', mergeStep es lk = Except.ok es' ∧ ∀ p ∈ es', p ≠ Json.null := by
  obtain ⟨o, ho⟩ := jsFindIndexE_ok_of_noNull lk.slug es h
  rw [mergeStep, ho]
  cases o with
  | none => exact ⟨es, rfl, h⟩
  | some i =>
    exact ⟨modifyAt (setColorField lk.color) i es, rfl,
      modifyAt_noNull _ i es h (fun p hp => setColorField_ne_null lk.color p hp)⟩

theorem mergeLocked_ok_of_noNull (locked : List ColorToken) (es : List Json)
    (h : ∀ p ∈ es, p ≠ Json.null) :
    ∃ out, mergeLockedIntoList es locked = Except.ok out := by
  induction locked generalizing es with
  | nil => exact ⟨es, rfl⟩
  | cons lk rest ih =>
    obtain ⟨es', hs, hes'⟩ := mergeStep_noNull es lk h
    obtain ⟨out, hout⟩ := ih es' hes'
    rw [mergeLockedIntoList, hs]
    exact ⟨out, hout⟩

/-- The palette path relative to an (updated) `theme_json` value. -/
def themePalette (tj : Json) : Option Json :=
  optChain (optChain (tj.getField "settings") "color") "palette"

theorem candidatePalette_decompose (aiTheme : Json) (x : Json)
    (h : candidatePalette aiTheme = some x) :
    ∃ tjv, aiTheme.getField "theme_json" = some tjv ∧ themePalette tjv = some x := by
  rw [candidatePalette] at h
  cases htj : aiTheme.getField "theme_json" with
  | none => rw [htj] at h; simp [optChain] at h
  | some tjv =>
    rw [htj] at h
    exact ⟨tjv, rfl, h⟩

theorem optChain_some (j : Json) (k : String) :
    optChain (some j) k = j.getField k := rfl

theorem themePalette_decompose (tjv : Json) (x : Json)
    (h : themePalette tjv = some x) :
    ∃ sv cv, tjv.getField "settings" = some sv ∧
      sv.getField "color" = some cv ∧ cv.getField "palette" = some x := by
  rw [themePalette] at h
  cases hs : tjv.getField "settings" with
  | none => rw [hs] at h; simp [optChain] at h
  | some sv =>
    rw [hs, optChain_some] at h
    cases hc : sv.getField "color" with
    | none => rw [hc] at h; simp [optChain] at h
    | some cv =>
      rw [hc, optChain_some] at h
      exact ⟨sv, cv, rfl, hc, h⟩

theorem find?_map_keyUpdate (fields : List (String × Json)) (k : String)
    (f : Json → Json) (w : Json)
    (h : (fields.find? (fun kv => kv.1 = k)).map (fun kv => kv.2) = some w) :
    ((fields.map (fun kv => if kv.1 = k then (kv.1, f kv.2) else kv)).find?
      (fun kv => kv.1 = k)).map (fun kv => kv.2) = some (f w) := by
  induction fields with
  | nil => simp [List.find?] at h
  | cons hd tl ih =>
    by_cases hk : hd.1 = k
    · rw [List.find?] at h
      rw [show (decide (hd.1 = k) : Bool) = true from by simp [hk]] at h
      simp only [Option.map_some'] at h
      rw [List.map_cons, if_pos hk, List.find?]
      rw [show (decide (hd.1 = k) : Bool) = true from by simp [hk]]
      simp only [Option.map_some']
      rw [Option.some_injective _ h]
    · rw [List.find?] at h
      rw [show (decide (hd.1 = k) : Bool) = false from by simp [hk]] at h
      rw [List.map_cons, if_neg hk, List.find?]
      rw [show (decide (hd.1 = k) : Bool) = false from by simp [hk]]
      exact ih h

theorem setPath_nil (j v : Json) : j.setPath [] v = v := by
  cases j <;> rfl

theorem setPath_getField_hit (j : Json) (k : String) (ks : List String)
    (v w : Json) (h : j.getField k = some w) :
    (j.setPath (k :: ks) v).getField k = some (w.setPath ks v) := by
  obtain ⟨fields, rfl⟩ := getField_some_obj h
  rw [Json.getField] at h
  rw [Json.setPath, Json.getField]
  exact find?_map_keyUpdate fields k (fun t => t.setPath ks v) w h

theorem themePalette_setPath (tjv sv cv pv v : Json)
    (h1 : tjv.getField "settings" = some sv)
    (h2 : sv.getField "color" = some cv)
    (h3 : cv.getField "palette" = some pv) :
    themePalette (tjv.setPath ["settings", "color", "palette"] v) = some v := by
  rw [themePalette]
  rw [setPath_getField_hit tjv "settings" ["color", "palette"] v sv h1]
  rw [optChain_some]
  rw [setPath_getField_hit sv "color" ["palette"] v cv h2]
  rw [optChain_some]
  rw [setPath_getField_hit cv "palette" [] v pv h3]
  rw [setPath_nil]

theorem jsonOr_obj (fields : List (String × Json)) (d : Json) :
    jsonOr (some (Json.obj fields)) d = Json.obj fields := by
  simp [jsonOr, Json.truthy]

theorem mergeWithLockedColors_noLocked (fields : List (String × Json))
    (project : Project) (hL : lockedColorsOf project = []) :
    mergeWithLockedColors (Json.obj fields) project = Except.ok
      { themeJson := jsonOr ((Json.obj fields).getField "theme_json") (Json.obj []),
        patterns := jsonOr ((Json.obj fields).getField "patterns") (Json.arr []),
        templateFront :=
          jsonOr ((Json.obj fields).getField "template_front") (Json.str "") } := by
  simp only [mergeWithLockedColors, hL, List.isEmpty_nil, Bool.not_true,
    Bool.and_false, Bool.false_eq_true, if_false]

theorem mergeWithLockedColors_withLocked (fields : List (String × Json))
    (project : Project) (tjv : Json) (entries merged : List Json)
    (hL : lockedColorsOf project ≠ [])
    (htj : (Json.obj fields).getField "theme_json" = some tjv)
    (hpath : candidatePalette (Json.obj fields) = some (Json.arr entries))
    (hmerge : mergeLockedIntoList entries (lockedColorsOf project) =
      Except.ok merged) :
    mergeWithLockedColors (Json.obj fields) project = Except.ok
      { themeJson := jsonOr (some (tjv.setPath ["settings", "color", "palette"]
          (Json.arr merged))) (Json.obj []),
        patterns := jsonOr ((Json.obj fields).getField "patterns") (Json.arr []),
        templateFront :=
          jsonOr ((Json.obj fields).getField "template_front") (Json.str "") } := by
  have hie : (lockedColorsOf project).isEmpty = false := by
    cases hc : lockedColorsOf project with
    | nil => exact absurd hc hL
    | cons a l => rfl
  simp only [mergeWithLockedColors, hpath, htj, hie, hmerge, Option.map_some',
    Option.getD_some, Json.truthy, Bool.not_false, Bool.and_true, if_true]

/-- Combined reduction of the merge on a candidate whose palette path is an
array, in the cases where the `forEach` loop does not throw: the result's
palette is either untouched (no locked colors) or the folded overwrite. -/
theorem mergeWithLockedColors_spec (project : Project) (aiTheme : Json)
    (entries merged : List Json)
    (hpath : candidatePalette aiTheme = some (Json.arr entries))
    (hcase : (lockedColorsOf project = [] ∧ merged = entries) ∨
      (lockedColorsOf project ≠ [] ∧
        mergeLockedIntoList entries (lockedColorsOf project) =
          Except.ok merged)) :
    ∃ t, mergeWithLockedColors aiTheme project = Except.ok t ∧
      themePalette t.themeJson = some (Json.arr merged) := by
  obtain ⟨tjv, htj, htp⟩ := candidatePalette_decompose _ _ hpath
  obtain ⟨sv, cv, h1, h2, h3⟩ := themePalette_decompose _ _ htp
  obtain ⟨fields0, rfl⟩ := getField_some_obj htj
  obtain ⟨fields1, rfl⟩ := getField_some_obj h1
  rcases hcase with ⟨hL, rfl⟩ | ⟨hL, hmerge⟩
  · refine ⟨_, mergeWithLockedColors_noLocked fields0 project hL, ?_⟩
    rw [htj, jsonOr_obj]
    exact htp
  · refine ⟨_, mergeWithLockedColors_withLocked fields0 project _ entries merged
      hL htj hpath hmerge, ?_⟩
    rw [Json.setPath, jsonOr_obj]
    rw [show Json.obj (fields1.map (fun kv =>
        if kv.1 = "settings" then
          (kv.1, Json.setPath kv.2 ["color", "palette"] (Json.arr merged))
        else kv)) =
        (Json.obj fields1).setPath ["settings", "color", "palette"]
          (Json.arr merged)
      from rfl]
    exact themePalette_setPath _ _ _ _ _ h1 h2 h3

/-! ### Claims C1 and C4 -/

/-- A minimal project: no brand, assets, content or layout records. -/
def sampleProjectBare : Project :=
  ⟨"Acme", none, "tr", [], none, none, none, none⟩

/-- A locked primary color token. -/
def sampleLockedToken : ColorToken := ⟨"primary", "#ff0000", true, none⟩

/-- A project whose brand palette is the single locked token. -/
def sampleLockedProject : Project :=
  ⟨"Acme", none, "tr", [],
    some ⟨none, none, some [sampleLockedToken], none, none, none⟩,
    none, none, none⟩

/-- A candidate palette entry proposing a different color for `primary`. -/
def sampleEntry : Json :=
  Json.obj [("slug", Json.str "primary"), ("color", Json.str "#00ff00")]

/-- An AI override whose palette proposes `#00ff00` for the locked slug. -/
def sampleAiTheme : Json :=
  Json.obj [("theme_json", Json.obj [("settings", Json.obj [("color",
    Json.obj [("palette", Json.arr [sampleEntry])])])])]

/-- An AI override whose candidate palette is `[null, {slug: "primary",
color: "#00ff00"}]`: the scan reads `.slug` of the `null` entry before
reaching the matching one. -/
def sampleAiThemeNullFirst : Json :=
  Json.obj [("theme_json", Json.obj [("settings", Json.obj [("color",
    Json.obj [("palette", Json.arr [Json.null, sampleEntry])])])])]

/-- An AI override whose candidate palette is `[null]`: no entry carries the
locked slug, and the scan throws on the `null` entry. -/
def sampleAiThemeNullOnly : Json :=
  Json.obj [("theme_json", Json.obj [("settings", Json.obj [("color",
    Json.obj [("palette", Json.arr [Json.null])])])])]

/-- Claim C1 is false as stated: with the candidate palette
`[null, {slug: "primary", color: "#00ff00"}]` and the locked `primary`
token, `findIndex`'s predicate reads `.slug` of the `null` entry first and
throws a `TypeError`, so the merge does NOT overwrite the candidate entry
bearing the locked slug — the override is discarded wholesale and generation
falls back to the deterministic theme. -/
theorem claim1_counterexample :
    mergeWithLockedColors sampleAiThemeNullFirst sampleLockedProject =
      Except.error () ∧
    parseAIResponse (some sampleAiThemeNullFirst) sampleLockedProject =
      generateDeterministicTheme sampleLockedProject :=
  ⟨rfl, rfl⟩

/-- Claim C1 (amended): a locked token passes through `harmonizeColors` and
`validateAndFixContrasts` byte-for-byte unchanged (positionally), and whenever
the override's candidate palette is an array of non-null entries whose scan
finds the locked token's slug, `mergeWithLockedColors` succeeds and overwrites
that candidate entry with the locked token's color, even when the override
proposed a different color there.  (When the scan instead reads `.slug` of a
`null` entry, the merge throws and generation falls back to the deterministic
theme, discarding the override — see the counterexample.  The slug-uniqueness
hypothesis `huni` reflects the data model's "slugs unique within a palette"
invariant; `jsFindIndexE` picks the first matching candidate entry, as
`findIndex` does.) -/
theorem claim1_locked_color_invariant
    (palette : List ColorToken) (primaryColor : String) (token : ColorToken)
    (i : ℕ) (project : Project) (aiTheme : Json) (entries : List Json) (j : ℕ)
    (hlock : token.locked = true)
    (hi : palette[i]? = some token)
    (huni : ∀ t' ∈ palette, t'.slug = token.slug → t' = token)
    (hproj : project.brand.bind Brand.palette = some palette)
    (hpath : candidatePalette aiTheme = some (Json.arr entries))
    (hnonull : ∀ p ∈ entries, p ≠ Json.null)
    (hfind : jsFindIndexE (entryMatchesSlug token.slug) entries =
      Except.ok (some j)) :
    (harmonizeColors palette primaryColor)[i]? = some token ∧
    (validateAndFixContrasts palette)[i]? = some token ∧
    ∃ t es, mergeWithLockedColors aiTheme project = Except.ok t ∧
      themePalette t.themeJson = some (Json.arr es) ∧
      ∃ q, es[j]? = some q ∧ q.getField "color" = some (Json.str token.color) := by
  refine ⟨?_, ?_, ?_⟩
  · rw [harmonizeColors, List.getElem?_map, hi, Option.map_some']
    simp [hlock]
  · rw [validateAndFixContrasts]
    simp only [List.getElem?_map, hi, Option.map_some']
    simp [hlock]
  · have hlocked : lockedColorsOf project = palette.filter (fun p => p.locked) := by
      rw [lockedColorsOf, hproj]
    have hmem_tok : token ∈ palette := List.mem_iff_getElem?.mpr ⟨i, hi⟩
    have hmem : token ∈ lockedColorsOf project := by
      rw [hlocked]
      exact List.mem_filter.mpr ⟨hmem_tok, by simp [hlock]⟩
    have hLne : lockedColorsOf project ≠ [] := by
      intro h
      rw [h] at hmem
      exact List.not_mem_nil token hmem
    obtain ⟨merged, hmerge⟩ :=
      mergeLocked_ok_of_noNull (lockedColorsOf project) entries hnonull
    obtain ⟨t, hok, hpal⟩ := mergeWithLockedColors_spec project aiTheme entries
      merged hpath (Or.inr ⟨hLne, hmerge⟩)
    have huni' : ∀ lk ∈ lockedColorsOf project, lk.slug = token.slug →
        lk.color = token.color := by
      intro lk hmemlk hs
      have hlkmem : lk ∈ palette := by
        rw [hlocked] at hmemlk
        exact (List.mem_filter.mp hmemlk).1
      rw [huni lk hlkmem hs]
    obtain ⟨q, hq, _, hqc⟩ := mergeLocked_sets_color (lockedColorsOf project)
      entries merged token j hmem huni' hfind hmerge
    exact ⟨t, merged, hok, hpal, q, hq, hqc⟩

/-- Claim C4 is false as stated: a candidate palette `[null]` lacks the locked
slug `primary`, yet the generated theme's palette is not missing it — the
scan throws a `TypeError` on the `null` entry, the override is discarded, and
the deterministic fallback theme's palette contains the locked `primary`
token.  (The claimed frame property presupposes the merge completes.) -/
theorem claim4_counterexample :
    mergeWithLockedColors sampleAiThemeNullOnly sampleLockedProject =
      Except.error () ∧
    parseAIResponse (some sampleAiThemeNullOnly) sampleLockedProject =
      generateDeterministicTheme sampleLockedProject ∧
    themePalette (generateDeterministicTheme sampleLockedProject).themeJson =
      some (Json.arr [Json.obj [("slug", Json.str "primary"),
        ("name", Json.str "Primary"), ("color", Json.str "#ff0000")]]) :=
  ⟨rfl, rfl, rfl⟩

/-- Claim C4 (amended, frame property of the merge): on a candidate palette
array of non-null entries the merge succeeds and never inserts or removes
entries (same length, pointwise identical scan observables — so a locked slug
absent from the override's palette stays absent from the merged palette), and
any entry whose slug matches no locked token is returned exactly as it was.
With a `null` entry the loop can instead throw, discarding the override (see
the counterexample). -/
theorem claim4_merge_frame (project : Project) (aiTheme : Json)
    (entries : List Json)
    (hpath : candidatePalette aiTheme = some (Json.arr entries))
    (hnonull : ∀ p ∈ entries, p ≠ Json.null) :
    ∃ t es, mergeWithLockedColors aiTheme project = Except.ok t ∧
      themePalette t.themeJson = some (Json.arr es) ∧
      es.length = entries.length ∧
      (∀ k : ℕ, (es[k]?).map slugKey = (entries[k]?).map slugKey) ∧
      (∀ k : ℕ, ∀ p, entries[k]? = some p →
        (∀ lk ∈ lockedColorsOf project,
          entryMatchesSlug lk.slug p = Except.ok false) →
        es[k]? = some p) := by
  by_cases hL : lockedColorsOf project = []
  · obtain ⟨t, hok, hpal⟩ := mergeWithLockedColors_spec project aiTheme entries
      entries hpath (Or.inl ⟨hL, rfl⟩)
    exact ⟨t, entries, hok, hpal, rfl, fun _ => rfl, fun _ p hk _ => hk⟩
  · obtain ⟨merged, hmerge⟩ :=
      mergeLocked_ok_of_noNull (lockedColorsOf project) entries hnonull
    obtain ⟨t, hok, hpal⟩ := mergeWithLockedColors_spec project aiTheme entries
      merged hpath (Or.inr ⟨hL, hmerge⟩)
    have haligned := mergeLocked_aligned (lockedColorsOf project) entries
      merged hmerge
    refine ⟨t, merged, hok, hpal, haligned.1.symm,
      fun k => (haligned.2 k).symm, fun k p hk hnm => ?_⟩
    exact mergeLocked_frame (lockedColorsOf project) entries merged k p
      hmerge hk hnm

theorem sampleEntry_not_null : ∀ p ∈ [sampleEntry], p ≠ Json.null := by
  intro p hp
  rw [List.mem_singleton] at hp
  subst hp
  rw [sampleEntry]
  exact fun h => Json.noConfusion h

theorem claim1_witness :
    (harmonizeColors [sampleLockedToken] "#0000ff")[0]? = some sampleLockedToken ∧
    (validateAndFixContrasts [sampleLockedToken])[0]? = some sampleLockedToken ∧
    ∃ t es, mergeWithLockedColors sampleAiTheme sampleLockedProject = Except.ok t ∧
      themePalette t.themeJson = some (Json.arr es) ∧
      ∃ q, es[0]? = some q ∧
        q.getField "color" = some (Json.str sampleLockedToken.color) :=
  claim1_locked_color_invariant [sampleLockedToken] "#0000ff" sampleLockedToken 0
    sampleLockedProject sampleAiTheme [sampleEntry] 0
    rfl rfl (by decide) rfl rfl sampleEntry_not_null rfl

theorem claim4_witness :
    ∃ t es, mergeWithLockedColors sampleAiTheme sampleProjectBare = Except.ok t ∧
      themePalette t.themeJson = some (Json.arr es) ∧
      es.length = [sampleEntry].length ∧
      (∀ k : ℕ, (es[k]?).map slugKey = ([sampleEntry][k]?).map slugKey) ∧
      (∀ k : ℕ, ∀ p, [sampleEntry][k]? = some p →
        (∀ lk ∈ lockedColorsOf sampleProjectBare,
          entryMatchesSlug lk.slug p = Except.ok false) →
        es[k]? = some p) :=
  claim4_merge_frame sampleProjectBare sampleAiTheme [sampleEntry] rfl
    sampleEntry_not_null

/-! ### Claim C3 -/

/-- Claim C3 is false as stated: the fallback to the deterministic path only
covers override inputs whose text yields no JSON value at all (no braces, or
`JSON.parse` throws) and inputs on which the duck-typed merge itself throws.
A syntactically valid JSON object of the wrong shape — here `\x7b"foo": 1\x7d`,
which does not parse as the expected `\x7btheme_json, patterns, template_front\x7d`
shape — is NOT discarded: the merge defaults the missing fields, producing an
empty theme (`\x7b\x7d`, `[]`, `""`) instead of the deterministic result. -/
theorem claim3_counterexample :
    parseAIResponse (some (Json.obj [("foo", Json.num 1)])) sampleProjectBare =
      { themeJson := Json.obj [], patterns := Json.arr [],
        templateFront := Json.str "" } ∧
    parseAIResponse (some (Json.obj [("foo", Json.num 1)])) sampleProjectBare ≠
      generateDeterministicTheme sampleProjectBare := by
  constructor
  · rfl
  · intro h
    have hp := congrArg GeneratedTheme.patterns h
    have h2 : ([] : List Json) =
        (generateBlockPatterns sampleProjectBare []).map (fun p =>
          Json.obj [("slug", Json.str p.slug), ("title", Json.str p.title),
            ("html", Json.str p.html)]) := by
      have hL : (parseAIResponse (some (Json.obj [("foo", Json.num 1)]))
          sampleProjectBare).patterns = Json.arr [] := rfl
      have hR : (generateDeterministicTheme sampleProjectBare).patterns =
          Json.arr ((generateBlockPatterns sampleProjectBare []).map (fun p =>
            Json.obj [("slug", Json.str p.slug), ("title", Json.str p.title),
              ("html", Json.str p.html)])) := rfl
      rw [hL, hR] at hp
      injection hp
    have hlen := congrArg List.length h2
    rw [List.length_map] at hlen
    rw [show (generateBlockPatterns sampleProjectBare []).length = 6 from rfl]
      at hlen
    exact absurd hlen (by norm_num)

/-- Claim C3 (amended): the silent fallback to the exact deterministic result
covers precisely the override inputs that produce no JSON value (no
`\x7b...\x7d` block, or `JSON.parse` throws — modelled as `parsed = none`) and
those on which the duck-typed merge throws (a `null` override value, a truthy
non-array palette path, or the scan reading `.slug` of a `null` palette
entry); `parseAIResponse` is total, so no exception reaches its caller.
Overrides that parse to JSON of the wrong shape are instead merged
field-by-field with `\x7b\x7d` / `[]` / `""` defaults. -/
theorem claim3_parse_failure_falls_back (project : Project)
    (parsed : Option Json)
    (h : parsed = none ∨ ∃ j e, parsed = some j ∧
      mergeWithLockedColors j project = Except.error e) :
    parseAIResponse parsed project = generateDeterministicTheme project := by
  rcases h with h | ⟨j, e, rfl, hm⟩
  · rw [h, parseAIResponse]
  · simp only [parseAIResponse, hm]

theorem claim3_witness :
    parseAIResponse (some sampleAiThemeNullOnly) sampleLockedProject =
      generateDeterministicTheme sampleLockedProject :=
  claim3_parse_failure_falls_back sampleLockedProject
    (some sampleAiThemeNullOnly)
    (Or.inr ⟨sampleAiThemeNullOnly, (), rfl, rfl⟩)

/-! ### Claims C5, C6, C10 -/

/-- Positional form of the benefits pattern (checked definitionally against
`generateBlockPatterns`). -/
theorem gbp_entry2 (project : Project) (palette : List ColorToken) :
    (generateBlockPatterns project palette)[2]? = some
      { slug := "benefits", title := "Benefits Section",
        html := "<!-- wp:group \x7b\"style\":\x7b\"spacing\":\x7b\"padding\":\x7b\"top\":\"80px\",\"bottom\":\"80px\"\x7d\x7d\x7d,\"layout\":\x7b\"type\":\"constrained\"\x7d\x7d -->\n<div class=\"wp-block-group\" style=\"padding-top:80px;padding-bottom:80px\">\n  <!-- wp:heading \x7b\"textAlign\":\"center\",\"fontSize\":\"x-large\"\x7d -->\n  <h2 class=\"has-text-align-center has-x-large-font-size\">Why Choose Us</h2>\n  <!-- /wp:heading -->\n  \n  <!-- wp:columns \x7b\"style\":\x7b\"spacing\":\x7b\"margin\":\x7b\"top\":\"40px\"\x7d\x7d\x7d\x7d -->\n  <div class=\"wp-block-columns\" style=\"margin-top:40px\">\n    " ++
          String.join (((listOr (project.content.bind Content.benefits)
            defaultBenefits).take 3).map benefitColumn) ++
          "\n  </div>\n  <!-- /wp:columns -->\n</div>\n<!-- /wp:group -->" } := rfl

/-- Positional form of the footer pattern (checked definitionally against
`generateBlockPatterns`). -/
theorem gbp_entry5 (project : Project) (palette : List ColorToken) :
    (generateBlockPatterns project palette)[5]? = some
      { slug := "footer", title := "Footer",
        html := "<!-- wp:group \x7b\"style\":\x7b\"spacing\":\x7b\"padding\":\x7b\"top\":\"40px\",\"bottom\":\"40px\"\x7d\x7d\x7d,\"backgroundColor\":\"neutral\",\"textColor\":\"white\",\"layout\":\x7b\"type\":\"constrained\"\x7d\x7d -->\n<div class=\"wp-block-group has-white-color has-neutral-background-color has-text-color has-background\" style=\"padding-top:40px;padding-bottom:40px\">\n  <!-- wp:paragraph \x7b\"align\":\"center\"\x7d -->\n  <p class=\"has-text-align-center\">© 2024 " ++
          project.name ++
          ". All rights reserved.</p>\n  <!-- /wp:paragraph -->\n</div>\n<!-- /wp:group -->" } := rfl

/-- A project whose content row exists with an explicitly empty benefits list. -/
def sampleProjectEmptyBenefits : Project :=
  ⟨"Acme", none, "tr", [], none, none, some ⟨none, some [], none, none⟩, none⟩

/-- Claim C5 is false as stated: with `content.benefits = []` (an explicitly
empty list), the JS default `project.content?.benefits || [...]` does NOT kick
in — an empty array is truthy — so the benefits pattern contains none of the
three default benefit titles. -/
theorem claim5_counterexample :
    ((generateBlockPatterns sampleProjectEmptyBenefits [])[2]?).map
      (fun p => strIncludes p.html "Fast Performance") = some false ∧
    ((generateBlockPatterns sampleProjectEmptyBenefits [])[2]?).map
      (fun p => strIncludes p.html "Mobile First") = some false ∧
    ((generateBlockPatterns sampleProjectEmptyBenefits [])[2]?).map
      (fun p => strIncludes p.html "SEO Ready") = some false := by
  rw [gbp_entry2]
  refine ⟨?_, ?_, ?_⟩ <;> decide

/-- Claim C5 (amended): the default triple `Fast Performance` / `Mobile First`
/ `SEO Ready` is rendered exactly when `content.benefits` is absent
(`undefined`/`null`); an explicitly empty benefits list renders an empty
benefits section instead (JS `||` does not treat `[]` as missing). -/
theorem claim5_default_benefits (project : Project) (palette : List ColorToken) :
    (project.content.bind Content.benefits = none →
      ((generateBlockPatterns project palette)[2]?).map BlockPattern.slug =
        some "benefits" ∧
      ((generateBlockPatterns project palette)[2]?).map
        (fun p => strIncludes p.html "Fast Performance") = some true ∧
      ((generateBlockPatterns project palette)[2]?).map
        (fun p => strIncludes p.html "Mobile First") = some true ∧
      ((generateBlockPatterns project palette)[2]?).map
        (fun p => strIncludes p.html "SEO Ready") = some true) ∧
    (project.content.bind Content.benefits = some [] →
      ((generateBlockPatterns project palette)[2]?).map
        (fun p => strIncludes p.html "Fast Performance") = some false ∧
      ((generateBlockPatterns project palette)[2]?).map
        (fun p => strIncludes p.html "Mobile First") = some false ∧
      ((generateBlockPatterns project palette)[2]?).map
        (fun p => strIncludes p.html "SEO Ready") = some false) := by
  constructor
  · intro h
    rw [gbp_entry2, h]
    refine ⟨rfl, ?_, ?_, ?_⟩ <;> decide
  · intro h
    rw [gbp_entry2, h]
    refine ⟨?_, ?_, ?_⟩ <;> decide

theorem claim5_witness :
    ((generateBlockPatterns sampleProjectBare [])[2]?).map BlockPattern.slug =
      some "benefits" ∧
    ((generateBlockPatterns sampleProjectBare [])[2]?).map
      (fun p => strIncludes p.html "Fast Performance") = some true ∧
    ((generateBlockPatterns sampleProjectBare [])[2]?).map
      (fun p => strIncludes p.html "Mobile First") = some true ∧
    ((generateBlockPatterns sampleProjectBare [])[2]?).map
      (fun p => strIncludes p.html "SEO Ready") = some true :=
  (claim5_default_benefits sampleProjectBare []).1 rfl

/-- A project whose layout row exists with an explicitly empty section list. -/
def sampleProjectEmptySections : Project :=
  ⟨"Acme", none, "tr", [], none, none, none, some ⟨some []⟩⟩

/-- Claim C6 is false as stated: with `layout.sections = []` (an explicitly
empty list) the JS default `project.layout?.sections || [...]` does NOT kick
in — an empty array is truthy — so the front-page template is the empty
string, not the template built from the default section order. -/
theorem claim6_counterexample :
    (generateWordPressTheme sampleProjectEmptySections).templateFront =
      Json.str "" ∧
    generateFrontPageTemplate defaultSections ≠ "" := by
  constructor
  · rfl
  · decide

/-- Claim C6 (amended): the default order
`[header, hero, benefits, about, contact, footer]` drives the front-page
template exactly when `layout.sections` is absent (`undefined`/`null`); an
explicitly empty section list produces an empty template instead. -/
theorem claim6_default_sections (project : Project) :
    (project.layout.bind Layout.sections = none →
      (generateWordPressTheme project).templateFront =
        Json.str (generateFrontPageTemplate defaultSections)) ∧
    (project.layout.bind Layout.sections = some [] →
      (generateWordPressTheme project).templateFront = Json.str "") := by
  constructor
  · intro h
    show Json.str (generateFrontPageTemplate
      (listOr (project.layout.bind Layout.sections) defaultSections)) =
      Json.str (generateFrontPageTemplate defaultSections)
    rw [h]
    rfl
  · intro h
    show Json.str (generateFrontPageTemplate
      (listOr (project.layout.bind Layout.sections) defaultSections)) =
      Json.str ""
    rw [h]
    rfl

theorem claim6_witness :
    (generateWordPressTheme sampleProjectBare).templateFront =
      Json.str (generateFrontPageTemplate defaultSections) :=
  (claim6_default_sections sampleProjectBare).1 rfl

/-- Claim C10 is false as stated: the footer's copyright year is the hardcoded
literal `2024`, not the current year at generation time (the code never
consults a clock), so a generation run today does not contain the current
year. -/
theorem claim10_counterexample :
    ((generateBlockPatterns sampleProjectBare [])[5]?).map
      (fun p => strIncludes p.html "© 2024") = some true ∧
    ((generateBlockPatterns sampleProjectBare [])[5]?).map
      (fun p => strIncludes p.html "2025") = some false ∧
    ((generateBlockPatterns sampleProjectBare [])[5]?).map
      (fun p => strIncludes p.html "2026") = some false := by
  rw [gbp_entry5]
  refine ⟨?_, ?_, ?_⟩ <;> decide

/-- Claim C10 (amended): for every project, the footer pattern is a fixed
copyright line interpolating exactly the project name, with the hardcoded
year 2024 (independent of the generation time). -/
theorem claim10_footer_fixed_line (project : Project) (palette : List ColorToken) :
    (generateBlockPatterns project palette)[5]? = some
      { slug := "footer", title := "Footer",
        html := "<!-- wp:group \x7b\"style\":\x7b\"spacing\":\x7b\"padding\":\x7b\"top\":\"40px\",\"bottom\":\"40px\"\x7d\x7d\x7d,\"backgroundColor\":\"neutral\",\"textColor\":\"white\",\"layout\":\x7b\"type\":\"constrained\"\x7d\x7d -->\n<div class=\"wp-block-group has-white-color has-neutral-background-color has-text-color has-background\" style=\"padding-top:40px;padding-bottom:40px\">\n  <!-- wp:paragraph \x7b\"align\":\"center\"\x7d -->\n  <p class=\"has-text-align-center\">© 2024 " ++
          project.name ++
          ". All rights reserved.</p>\n  <!-- /wp:paragraph -->\n</div>\n<!-- /wp:group -->" } :=
  gbp_entry5 project palette

/-! ### Claim C7 -/

/-- A lowercase hexadecimal digit. -/
def isLowerHexDigit (c : Char) : Bool :=
  ('0' ≤ c && c ≤ '9') || ('a' ≤ c && c ≤ 'f')

/-- Claim C7 is false as stated: `rgbToHex` does not clamp its channels to
[0, 255].  At input (256, 0, 0) it emits `#1000000` — seven hex digits after
the `#` — instead of the clamped `#ff0000`. -/
theorem claim7_counterexample :
    rgbToHex 256 0 0 = "#1000000" ∧ rgbToHex 256 0 0 ≠ "#ff0000" := by
  rw [show (256 : ℚ) = ((256 : ℕ) : ℚ) from by norm_cast,
    show (0 : ℚ) = ((0 : ℕ) : ℚ) from by norm_cast]
  rw [rgbToHex_natCast]
  constructor
  · decide
  · decide

theorem byteHexInt_bounded :
    ∀ n : Fin 256, (byteHexInt ((n : ℕ) : ℤ)).length = 2 ∧
      (byteHexInt ((n : ℕ) : ℤ)).data.all isLowerHexDigit = true := by decide

/-- Claim C7 (amended): when each rounded channel already lies in [0, 255],
`rgbToHex` returns `#` followed by exactly six lowercase hex digits (each
channel rounded to nearest and zero-padded to two digits); the claimed
clamping does not exist, and out-of-range channels yield malformed strings. -/
theorem claim7_hex_format (r g b : ℚ)
    (hr0 : 0 ≤ jsRound r) (hr1 : jsRound r ≤ 255)
    (hg0 : 0 ≤ jsRound g) (hg1 : jsRound g ≤ 255)
    (hb0 : 0 ≤ jsRound b) (hb1 : jsRound b ≤ 255) :
    (rgbToHex r g b).length = 7 ∧
      (rgbToHex r g b).data.head? = some '#' ∧
      (rgbToHex r g b).data.tail.all isLowerHexDigit = true := by
  have main : ∀ i : ℤ, 0 ≤ i → i ≤ 255 → (byteHexInt i).length = 2 ∧
      (byteHexInt i).data.all isLowerHexDigit = true := by
    intro i h0 h1
    have hi : i = (((⟨i.toNat, by omega⟩ : Fin 256) : ℕ) : ℤ) := by
      simp [Int.toNat_of_nonneg h0]
    rw [hi]
    exact byteHexInt_bounded _
  obtain ⟨lr, ar⟩ := main _ hr0 hr1
  obtain ⟨lg, ag⟩ := main _ hg0 hg1
  obtain ⟨lb, ab⟩ := main _ hb0 hb1
  rw [rgbToHex, byteHex, byteHex, byteHex]
  refine ⟨?_, ?_, ?_⟩
  · rw [String.length_append, String.length_append, String.length_append,
      lr, lg, lb]
    rfl
  · rw [String.data_append, String.data_append, String.data_append]
    rfl
  · rw [String.data_append, String.data_append, String.data_append]
    rw [show ("#" : String).data = ['#'] from rfl]
    simp only [List.append_assoc, List.cons_append, List.nil_append,
      List.tail_cons, List.all_append]
    rw [ar, ag, ab]
    rfl

theorem claim7_witness :
    0 ≤ jsRound 0 ∧ jsRound 0 ≤ 255 ∧
    0 ≤ jsRound 127.5 ∧ jsRound 127.5 ≤ 255 ∧
    0 ≤ jsRound 255 ∧ jsRound 255 ≤ 255 ∧
    ((rgbToHex 0 127.5 255).length = 7 ∧
      (rgbToHex 0 127.5 255).data.head? = some '#' ∧
      (rgbToHex 0 127.5 255).data.tail.all isLowerHexDigit = true) := by
  have h0a : jsRound 0 = 0 := by norm_num [jsRound]
  have h1a : jsRound 127.5 = 128 := by norm_num [jsRound]
  have h2a : jsRound 255 = 255 := by norm_num [jsRound]
  refine ⟨by rw [h0a], by rw [h0a]; norm_num, by rw [h1a]; norm_num,
    by rw [h1a]; norm_num, by rw [h2a]; norm_num, by rw [h2a], ?_⟩
  exact claim7_hex_format 0 127.5 255
    (by rw [h0a]) (by rw [h0a]; norm_num) (by rw [h1a]; norm_num)
    (by rw [h1a]; norm_num) (by rw [h2a]; norm_num) (by rw [h2a])

/-! ### Claim C9 -/

/-- Modelled from the spec (§4.7): `header` and `footer` map to template-part
references; `hero`, `benefits`, `about`, `services` and `contact` map to
pattern references with the same slug — which coincide with the generic form —
and every other name falls through to a generic pattern reference using the
name itself as the slug.  This is the specification-side description against
which `generateFrontPageTemplate` is compared. -/
def specSectionRef (s : String) : String :=
  if s = "header" then
    "<!-- wp:template-part \x7b\"slug\":\"header\",\"area\":\"header\"\x7d /-->"
  else if s = "footer" then
    "<!-- wp:template-part \x7b\"slug\":\"footer\",\"area\":\"footer\"\x7d /-->"
  else "<!-- wp:pattern \x7b\"slug\":\"" ++ s ++ "\"\x7d /-->"

theorem sectionRef_agrees (s : String) (hs : s ∉ objectPrototypeKeys) :
    (sectionMapLookup s).getD
        ("<!-- wp:pattern \x7b\"slug\":\"" ++ s ++ "\"\x7d /-->") =
      specSectionRef s := by
  by_cases h1 : s = "header"
  · subst h1; decide
  by_cases h2 : s = "hero"
  · subst h2; decide
  by_cases h3 : s = "benefits"
  · subst h3; decide
  by_cases h4 : s = "about"
  · subst h4; decide
  by_cases h5 : s = "services"
  · subst h5; decide
  by_cases h6 : s = "contact"
  · subst h6; decide
  by_cases h7 : s = "footer"
  · subst h7; decide
  have hmap : sectionMap s = none := by
    rw [sectionMap, if_neg h1, if_neg h2, if_neg h3, if_neg h4, if_neg h5,
      if_neg h6, if_neg h7]
  rw [sectionMapLookup, hmap]
  rw [if_neg hs]
  rw [specSectionRef, if_neg h1, if_neg h7]
  rfl

/-- Claim C9 is false as stated: section names that coincide with inherited
`Object.prototype` member names do not fall through to the generic pattern
reference — `sectionMap["constructor"]` is the truthy inherited `Object`
constructor function, the `||` fallback is bypassed, and `join` stringifies
the function into the template.  The output for `["constructor"]` is not the
generic pattern reference and contains no block reference at all. -/
theorem claim9_counterexample :
    generateFrontPageTemplate ["constructor"] ≠
      "<!-- wp:pattern \x7b\"slug\":\"constructor\"\x7d /-->" ∧
    strIncludes (generateFrontPageTemplate ["constructor"]) "wp:pattern" =
      false := by
  constructor
  · decide
  · decide

/-- Claim C9 (amended): for every input list of section names that avoids the
inherited `Object.prototype` member names, the front-page template is the
newline-joined concatenation of one reference per name, in input order and
preserving duplicates; `header`/`footer` resolve to template-part references,
the known pattern sections to their pattern references, and every other such
name to a generic pattern reference with the name itself as the slug — never
an error.  (Names like `constructor` or `toString` instead pick up the truthy
inherited member, which is stringified into the template — see the
counterexample.) -/
theorem claim9_template_sequencer (sections : List String)
    (h : ∀ s ∈ sections, s ∉ objectPrototypeKeys) :
    generateFrontPageTemplate sections =
      String.intercalate "\n" (sections.map specSectionRef) := by
  rw [generateFrontPageTemplate]
  congr 1
  induction sections with
  | nil => rfl
  | cons x xs ih =>
    rw [List.map_cons, List.map_cons, sectionRef_agrees x (h x (by simp)),
      ih (fun s hs => h s (by simp [hs]))]

theorem claim9_witness :
    (∀ s ∈ ["hero", "header", "contact"], s ∉ objectPrototypeKeys) ∧
    generateFrontPageTemplate ["hero", "header", "contact"] =
      String.intercalate "\n"
        (["hero", "header", "contact"].map specSectionRef) :=
  ⟨by decide, claim9_template_sequencer ["hero", "header", "contact"]
    (by decide)⟩
